import Mathlib

/-!
Shallow embedding of the Conway's Game of Life implementation in
`src/lab2/src/main.rs` (struct `GameOfLife` and its methods), together with
proofs of the specified properties.

Modelling conventions:
* `Vec<Vec<CellState>>` becomes `List (List CellState)`; indexing uses
  `getElem?` with `CellState.Dead` (resp. `[]`) as the out-of-range default.
  All reachable grids are well formed (`height` rows of `width` cells), and on
  well-formed grids the total model agrees with the partial Rust indexing.
* the imperative write loops become left folds over `List.range`, writing one
  cell at a time, reading (as the Rust code does) from the original grid.
* the random source `rand::thread_rng` / `gen_bool(p)` is modelled by an
  oracle `rnd : Nat → Nat → ℚ` of uniform samples, one per cell; the draw
  `gen_bool p` for the cell `(x, y)` succeeds iff `rnd x y < p`.
-/

inductive CellState where
  | Dead
  | Alive
deriving DecidableEq, Repr

/-- The `GameOfLife` struct: a grid of cells plus its dimensions. -/
structure GameOfLife where
  grid : List (List CellState)
  width : Nat
  height : Nat
deriving DecidableEq, Repr

/-- Reading `self.grid[y][x]`, totalised with the `Dead` default. -/
def getCell (g : GameOfLife) (x y : Nat) : CellState :=
  ((g.grid[y]?.getD [])[x]?).getD CellState.Dead

/-- Writing `self.grid[y][x] = s` (a no-op out of range, where Rust panics). -/
def setCell (g : GameOfLife) (x y : Nat) (s : CellState) : GameOfLife :=
  { g with grid := g.grid.set y ((g.grid[y]?.getD []).set x s) }

/-- `GameOfLife::new`. -/
def GameOfLife.new (width height : Nat) : GameOfLife :=
  { grid := List.replicate height (List.replicate width CellState.Dead)
    width := width
    height := height }

/-- `GameOfLife::clear_grid`: set every cell of every row to `Dead`. -/
def GameOfLife.clear_grid (g : GameOfLife) : GameOfLife :=
  { g with grid := g.grid.map (fun row => row.map (fun _ => CellState.Dead)) }

/-- `GameOfLife::apply_rules`: the ordered match on (state, neighbors). -/
def GameOfLife.apply_rules (current_state : CellState) (neighbors : Nat) : CellState :=
  if current_state = CellState.Alive ∧ neighbors < 2 then CellState.Dead
  else if current_state = CellState.Alive ∧ (neighbors = 2 ∨ neighbors = 3) then CellState.Alive
  else if current_state = CellState.Alive ∧ neighbors > 3 then CellState.Dead
  else if current_state = CellState.Dead ∧ neighbors = 3 then CellState.Alive
  else current_state

/-- `GameOfLife::is_valid_position`. -/
def GameOfLife.is_valid_position (g : GameOfLife) (x y : Int) : Bool :=
  decide (0 ≤ x) && decide (x < (g.width : Int)) &&
  decide (0 ≤ y) && decide (y < (g.height : Int))

/-- `GameOfLife::is_alive` (`self.grid[y][x] == CellState::Alive`). -/
def GameOfLife.is_alive (g : GameOfLife) (x y : Nat) : Bool :=
  getCell g x y == CellState.Alive

/-- The `(dx, dy)` pairs visited by the double loop `dy in -1..=1`,
`dx in -1..=1` in `count_live_neighbors`, with `(0, 0)` skipped. -/
def neighbor_deltas : List (Int × Int) :=
  [(-1, -1), (0, -1), (1, -1), (-1, 0), (1, 0), (-1, 1), (0, 1), (1, 1)]

/-- `GameOfLife::count_live_neighbors`: the `count += 1` accumulator loop. -/
def GameOfLife.count_live_neighbors (g : GameOfLife) (x y : Nat) : Nat :=
  neighbor_deltas.foldl (fun count d =>
    if g.is_valid_position ((x : Int) + d.1) ((y : Int) + d.2) &&
       g.is_alive ((x : Int) + d.1).toNat ((y : Int) + d.2).toNat
    then count + 1 else count) 0

/-- `GameOfLife::next_generation`: clone the grid (`acc` starts as `g`), then
overwrite every in-range cell of the clone with the rule applied to the OLD
grid `g`, and commit the clone. -/
def GameOfLife.next_generation (g : GameOfLife) : GameOfLife :=
  (List.range g.height).foldl (fun acc y =>
    (List.range g.width).foldl (fun acc2 x =>
      setCell acc2 x y
        (GameOfLife.apply_rules (getCell g x y) (g.count_live_neighbors x y))) acc) g

/-- `GameOfLife::get_color`. -/
def GameOfLife.get_color (g : GameOfLife) (x y : Nat) : Nat :=
  if x < g.width ∧ y < g.height then
    match getCell g x y with
    | CellState.Alive => 0x00FFFFFF
    | CellState.Dead => 0x00001122
  else 0x00000000

/-- The constant `WIDTH` of `main.rs`. -/
def WIDTH : Nat := 100

/-- The constant `HEIGHT` of `main.rs`. -/
def HEIGHT : Nat := 100

/-- `GameOfLife::to_gif_frame_data`: the flat row-major index buffer of size
`WIDTH * HEIGHT` with entry `y * WIDTH + x` set from `self.grid[y][x]`. -/
def GameOfLife.to_gif_frame_data (g : GameOfLife) : List Nat :=
  ((List.range HEIGHT).map (fun y => (List.range WIDTH).map (fun x =>
    match getCell g x y with
    | CellState.Alive => 1
    | CellState.Dead => 0))).flatten

/-- `GameOfLife::add_pattern`: stamp each offset whose absolute coordinate is
in bounds; out-of-bounds offsets are skipped. -/
def GameOfLife.add_pattern (g : GameOfLife) (base_x base_y : Nat)
    (pattern : List (Nat × Nat)) : GameOfLife :=
  pattern.foldl (fun g' d =>
    if base_x + d.1 < g'.width ∧ base_y + d.2 < g'.height
    then setCell g' (base_x + d.1) (base_y + d.2) CellState.Alive
    else g') g

/-- The Glider offsets of `add_glider`. -/
def glider_pattern : List (Nat × Nat) := [(1, 0), (2, 1), (0, 2), (1, 2), (2, 2)]

/-- The Block offsets of `add_block`. -/
def block_pattern : List (Nat × Nat) := [(0, 0), (0, 1), (1, 0), (1, 1)]

/-- The Blinker offsets of `add_blinker`. -/
def blinker_pattern : List (Nat × Nat) := [(0, 0), (1, 0), (2, 0)]

/-- The Toad offsets of `add_toad`. -/
def toad_pattern : List (Nat × Nat) := [(1, 0), (2, 0), (3, 0), (0, 1), (1, 1), (2, 1)]

/-- The Beacon offsets of `add_beacon`. -/
def beacon_pattern : List (Nat × Nat) := [(0, 0), (0, 1), (1, 0), (2, 3), (3, 2), (3, 3)]

/-- The Beehive offsets of `add_beehive`. -/
def beehive_pattern : List (Nat × Nat) := [(1, 0), (2, 0), (0, 1), (3, 1), (1, 2), (2, 2)]

/-- The Lightweight Spaceship offsets of `add_lightweight_spaceship`. -/
def lwss_pattern : List (Nat × Nat) :=
  [(0, 0), (3, 0), (4, 1), (0, 2), (4, 2), (1, 3), (2, 3), (3, 3), (4, 3)]

/-- The Pulsar offsets of `add_pulsar`. -/
def pulsar_pattern : List (Nat × Nat) :=
  [(2, 0), (3, 0), (4, 0), (8, 0), (9, 0), (10, 0),
   (0, 2), (5, 2), (7, 2), (12, 2),
   (0, 3), (5, 3), (7, 3), (12, 3),
   (0, 4), (5, 4), (7, 4), (12, 4),
   (2, 5), (3, 5), (4, 5), (8, 5), (9, 5), (10, 5),
   (2, 7), (3, 7), (4, 7), (8, 7), (9, 7), (10, 7),
   (0, 8), (5, 8), (7, 8), (12, 8),
   (0, 9), (5, 9), (7, 9), (12, 9),
   (0, 10), (5, 10), (7, 10), (12, 10),
   (2, 12), (3, 12), (4, 12), (8, 12), (9, 12), (10, 12)]

/-- `GameOfLife::add_glider`. -/
def GameOfLife.add_glider (g : GameOfLife) (x y : Nat) : GameOfLife :=
  g.add_pattern x y glider_pattern

/-- `GameOfLife::add_block`. -/
def GameOfLife.add_block (g : GameOfLife) (x y : Nat) : GameOfLife :=
  g.add_pattern x y block_pattern

/-- `GameOfLife::add_blinker`. -/
def GameOfLife.add_blinker (g : GameOfLife) (x y : Nat) : GameOfLife :=
  g.add_pattern x y blinker_pattern

/-- `GameOfLife::add_toad`. -/
def GameOfLife.add_toad (g : GameOfLife) (x y : Nat) : GameOfLife :=
  g.add_pattern x y toad_pattern

/-- `GameOfLife::add_beacon`. -/
def GameOfLife.add_beacon (g : GameOfLife) (x y : Nat) : GameOfLife :=
  g.add_pattern x y beacon_pattern

/-- `GameOfLife::add_beehive`. -/
def GameOfLife.add_beehive (g : GameOfLife) (x y : Nat) : GameOfLife :=
  g.add_pattern x y beehive_pattern

/-- `GameOfLife::add_lightweight_spaceship`. -/
def GameOfLife.add_lightweight_spaceship (g : GameOfLife) (x y : Nat) : GameOfLife :=
  g.add_pattern x y lwss_pattern

/-- `GameOfLife::add_pulsar`. -/
def GameOfLife.add_pulsar (g : GameOfLife) (x y : Nat) : GameOfLife :=
  g.add_pattern x y pulsar_pattern

/-- `GameOfLife::add_known_patterns`: the ten stamps, in source order. -/
def GameOfLife.add_known_patterns (g : GameOfLife) : GameOfLife :=
  ((((((((((g.add_glider 15 15).add_glider 70 10).add_block 5 5).add_block 90 90
    ).add_blinker 25 25).add_toad 35 35).add_beacon 45 45).add_beehive 60 60
    ).add_lightweight_spaceship 10 50).add_pulsar 50 20)

/-- `GameOfLife::add_random_cells`: for each cell, in row-major loop order,
draw `gen_bool(probability)` (modelled as `rnd x y < probability`) and set the
cell `Alive` on success, leaving it untouched otherwise. -/
def GameOfLife.add_random_cells (g : GameOfLife) (probability : ℚ)
    (rnd : Nat → Nat → ℚ) : GameOfLife :=
  (List.range g.height).foldl (fun g1 y =>
    (List.range g.width).foldl (fun g2 x =>
      if rnd x y < probability then setCell g2 x y CellState.Alive else g2) g1) g

/-- `GameOfLife::initialize` (renamed): clear, random cells at `0.15`, then
the known patterns. -/
def GameOfLife.initGrid (g : GameOfLife) (rnd : Nat → Nat → ℚ) : GameOfLife :=
  ((g.clear_grid).add_random_cells (15 / 100) rnd).add_known_patterns

/-- The representation invariant: the grid really is `height` rows of `width`
cells each. -/
def wellFormed (g : GameOfLife) : Prop :=
  g.grid.length = g.height ∧ ∀ row ∈ g.grid, row.length = g.width

instance (g : GameOfLife) : Decidable (wellFormed g) := by
  unfold wellFormed; infer_instance

/-- Modelled from the spec: the reference synchronous update — the complete
next-state table is built from a single snapshot of the prior generation `g`
and committed wholesale. -/
def sync_next (g : GameOfLife) : GameOfLife :=
  { g with grid := (List.range g.height).map (fun y => (List.range g.width).map (fun x =>
      GameOfLife.apply_rules (getCell g x y) (g.count_live_neighbors x y))) }

/-- Modelled from the spec: the Moore-neighborhood positions of `(x, y)` that
lie inside `[0, width) × [0, height)`, as natural coordinates (no wrapping). -/
def moore_in_bounds (g : GameOfLife) (x y : Nat) : List (Nat × Nat) :=
  neighbor_deltas.filterMap (fun d =>
    let nx : Int := (x : Int) + d.1
    let ny : Int := (y : Int) + d.2
    if 0 ≤ nx ∧ nx < (g.width : Int) ∧ 0 ≤ ny ∧ ny < (g.height : Int)
    then some (nx.toNat, ny.toNat) else none)

/-- Indicator of a decidable proposition, used to linearize the neighbor
counting loop. -/
def boolInd (c : Prop) [Decidable c] : Nat := if c then 1 else 0

/-- A small concrete grid: a Blinker stamped at `(2, 2)` on a 7×7 board. -/
def sampleGrid : GameOfLife := (GameOfLife.new 7 7).add_blinker 2 2

/-! ### Basic lemmas about cell access and the representation invariant -/

theorem setCell_width (g : GameOfLife) (x y : Nat) (s : CellState) :
    (setCell g x y s).width = g.width := rfl

theorem setCell_height (g : GameOfLife) (x y : Nat) (s : CellState) :
    (setCell g x y s).height = g.height := rfl

theorem wellFormed_setCell (g : GameOfLife) (x y : Nat) (s : CellState)
    (hw : wellFormed g) (hy : y < g.height) : wellFormed (setCell g x y s) := by
  have hylen : y < g.grid.length := by rw [hw.1]; exact hy
  constructor
  · simpa [setCell] using hw.1
  · intro row hrow
    rcases List.mem_or_eq_of_mem_set hrow with h | h
    · exact hw.2 _ h
    · subst h
      rw [List.length_set, List.getElem?_eq_getElem hylen, Option.getD_some]
      exact hw.2 _ (List.getElem_mem hylen)

theorem getCell_setCell (g : GameOfLife) (x y i j : Nat) (s : CellState)
    (hw : wellFormed g) (hx : x < g.width) (hy : y < g.height) :
    getCell (setCell g x y s) i j = if x = i ∧ y = j then s else getCell g i j := by
  have hylen : y < g.grid.length := by rw [hw.1]; exact hy
  have hrow : g.grid[y]?.getD [] = g.grid[y] := by
    rw [List.getElem?_eq_getElem hylen, Option.getD_some]
  have hrowlen : (g.grid[y]).length = g.width := hw.2 _ (List.getElem_mem hylen)
  unfold getCell setCell
  simp only [List.getElem?_set]
  by_cases hyj : y = j
  · subst hyj
    rw [if_pos rfl, if_pos hylen, Option.getD_some, hrow, List.getElem?_set, hrowlen]
    by_cases hxi : x = i
    · subst hxi
      simp [hx, hrow]
    · simp [hxi, hrow]
  · rw [if_neg hyj]
    simp [hyj]

theorem wellFormed_new (w h : Nat) : wellFormed (GameOfLife.new w h) := by
  constructor
  · simp [GameOfLife.new]
  · intro row hrow
    have := List.eq_of_mem_replicate hrow
    subst this
    simp [GameOfLife.new]

theorem getCell_new (w h x y : Nat) : getCell (GameOfLife.new w h) x y = CellState.Dead := by
  unfold getCell GameOfLife.new
  simp only [List.getElem?_replicate]
  by_cases hy : y < h
  · simp only [if_pos hy, Option.getD_some]
    by_cases hx : x < w
    · simp [hx]
    · simp [hx]
  · simp [hy]

theorem clear_grid_width (g : GameOfLife) : g.clear_grid.width = g.width := rfl

theorem clear_grid_height (g : GameOfLife) : g.clear_grid.height = g.height := rfl

theorem wellFormed_clear_grid (g : GameOfLife) (hw : wellFormed g) :
    wellFormed g.clear_grid := by
  constructor
  · simpa [GameOfLife.clear_grid] using hw.1
  · intro row hrow
    simp only [GameOfLife.clear_grid, List.mem_map] at hrow
    obtain ⟨r, hr, rfl⟩ := hrow
    simpa using hw.2 _ hr

theorem getCell_clear_grid (g : GameOfLife) (x y : Nat) :
    getCell g.clear_grid x y = CellState.Dead := by
  unfold getCell GameOfLife.clear_grid
  simp only [List.getElem?_map]
  cases hrow : g.grid[y]? with
  | none => simp
  | some r =>
    simp only [Option.map_some', Option.getD_some, List.getElem?_map]
    cases hc : r[x]? with
    | none => simp
    | some c => simp

/-- A `foldl` of grid updates preserves any invariant preserved by each step. -/
theorem foldl_invariant {α : Type} (P : GameOfLife → Prop) (body : GameOfLife → α → GameOfLife)
    (hpres : ∀ a x, P a → P (body a x)) :
    ∀ (l : List α) (a : GameOfLife), P a → P (l.foldl body a) := by
  intro l
  induction l with
  | nil => intro a h; exact h
  | cons hd tl ih => intro a h; exact ih _ (hpres a hd h)

/-- Two well-formed grids of the same dimensions with the same cells are equal. -/
theorem gameOfLife_ext (g1 g2 : GameOfLife) (hw1 : wellFormed g1) (hw2 : wellFormed g2)
    (hWidth : g1.width = g2.width) (hHeight : g1.height = g2.height)
    (hcell : ∀ x y, x < g1.width → y < g1.height → getCell g1 x y = getCell g2 x y) :
    g1 = g2 := by
  have hgrid : g1.grid = g2.grid := by
    apply List.ext_getElem?
    intro n
    by_cases hn : n < g1.height
    · have hn1 : n < g1.grid.length := by rw [hw1.1]; exact hn
      have hn2 : n < g2.grid.length := by rw [hw2.1, ← hHeight]; exact hn
      rw [List.getElem?_eq_getElem hn1, List.getElem?_eq_getElem hn2]
      congr 1
      apply List.ext_getElem?
      intro m
      by_cases hm : m < g1.width
      · have hm1 : m < (g1.grid[n]).length := by
          rw [hw1.2 _ (List.getElem_mem hn1)]; exact hm
        have hm2 : m < (g2.grid[n]).length := by
          rw [hw2.2 _ (List.getElem_mem hn2), ← hWidth]; exact hm
        rw [List.getElem?_eq_getElem hm1, List.getElem?_eq_getElem hm2]
        have := hcell m n hm hn
        unfold getCell at this
        rw [List.getElem?_eq_getElem hn1, List.getElem?_eq_getElem hn2] at this
        simp only [Option.getD_some] at this
        rw [List.getElem?_eq_getElem hm1, List.getElem?_eq_getElem hm2] at this
        simp only [Option.getD_some] at this
        rw [this]
      · have hm1 : (g1.grid[n]).length ≤ m := by
          rw [hw1.2 _ (List.getElem_mem hn1)]; omega
        have hm2 : (g2.grid[n]).length ≤ m := by
          rw [hw2.2 _ (List.getElem_mem hn2), ← hWidth]; omega
        rw [List.getElem?_eq_none hm1, List.getElem?_eq_none hm2]
    · have hn1 : g1.grid.length ≤ n := by rw [hw1.1]; omega
      have hn2 : g2.grid.length ≤ n := by rw [hw2.1, ← hHeight]; omega
      rw [List.getElem?_eq_none hn1, List.getElem?_eq_none hn2]
  cases g1
  cases g2
  simp_all

/-- A `foldl` of grid updates preserves an invariant preserved by each step
taken at an element of the list. -/
theorem foldl_invariant_mem {α : Type} (P : GameOfLife → Prop)
    (body : GameOfLife → α → GameOfLife) (l : List α)
    (hpres : ∀ a x, x ∈ l → P a → P (body a x)) :
    ∀ (a : GameOfLife), P a → P (l.foldl body a) := by
  induction l with
  | nil => intro a h; exact h
  | cons hd tl ih =>
    intro a h
    exact ih (fun a x hx => hpres a x (List.mem_cons_of_mem _ hx)) _
      (hpres a hd (List.mem_cons_self _ _) h)

/-- Effect of an inner write loop (over `x` in `List.range n`, at a fixed row
`y`) whose body rewrites cell `(x, y)` to `G x` of its old value. -/
theorem rowFold_getCell (w h : Nat) (body : GameOfLife → Nat → GameOfLife) (y : Nat)
    (G : Nat → CellState → CellState)
    (hpres : ∀ a x, x < w → wellFormed a ∧ a.width = w ∧ a.height = h →
      wellFormed (body a x) ∧ (body a x).width = w ∧ (body a x).height = h)
    (heff : ∀ a x i j, wellFormed a → a.width = w → a.height = h → x < w →
      getCell (body a x) i j = if x = i ∧ y = j then G x (getCell a i j) else getCell a i j) :
    ∀ (n : Nat) (a : GameOfLife), wellFormed a → a.width = w → a.height = h → n ≤ w →
      ∀ i j, getCell ((List.range n).foldl body a) i j =
        if i < n ∧ y = j then G i (getCell a i j) else getCell a i j := by
  intro n
  induction n with
  | zero =>
    intro a hwf hww hhh hn i j
    simp
  | succ n ih =>
    intro a hwf hww hhh hn i j
    rw [List.range_succ, List.foldl_append]
    simp only [List.foldl_cons, List.foldl_nil]
    have hinv := foldl_invariant_mem
      (fun a => wellFormed a ∧ a.width = w ∧ a.height = h) body (List.range n)
      (fun a x hx => hpres a x (by have := List.mem_range.mp hx; omega))
      a ⟨hwf, hww, hhh⟩
    obtain ⟨hwf2, hww2, hhh2⟩ := hinv
    rw [heff _ n i j hwf2 hww2 hhh2 (by omega)]
    rw [ih a hwf hww hhh (by omega) i j]
    by_cases h1 : n = i ∧ y = j
    · rw [if_pos h1]
      obtain ⟨rfl, rfl⟩ := h1
      rw [if_neg (by omega), if_pos ⟨by omega, rfl⟩]
    · rw [if_neg h1]
      by_cases h2 : i < n ∧ y = j
      · rw [if_pos h2, if_pos ⟨by omega, h2.2⟩]
      · rw [if_neg h2, if_neg (by omega)]

/-- Effect of an outer write loop (over `y` in `List.range m`) whose row body
rewrites every cell `(i, y)`, `i < w`, to `G i y` of its old value. -/
theorem gridFold_getCell (w h : Nat) (rowbody : GameOfLife → Nat → GameOfLife)
    (G : Nat → Nat → CellState → CellState)
    (hpres : ∀ a y, y < h → wellFormed a ∧ a.width = w ∧ a.height = h →
      wellFormed (rowbody a y) ∧ (rowbody a y).width = w ∧ (rowbody a y).height = h)
    (heff : ∀ a y i j, wellFormed a → a.width = w → a.height = h → y < h →
      getCell (rowbody a y) i j =
        if i < w ∧ y = j then G i y (getCell a i j) else getCell a i j) :
    ∀ (m : Nat) (a : GameOfLife), wellFormed a → a.width = w → a.height = h → m ≤ h →
      ∀ i j, getCell ((List.range m).foldl rowbody a) i j =
        if i < w ∧ j < m then G i j (getCell a i j) else getCell a i j := by
  intro m
  induction m with
  | zero =>
    intro a hwf hww hhh hm i j
    simp
  | succ m ih =>
    intro a hwf hww hhh hm i j
    rw [List.range_succ, List.foldl_append]
    simp only [List.foldl_cons, List.foldl_nil]
    have hinv := foldl_invariant_mem
      (fun a => wellFormed a ∧ a.width = w ∧ a.height = h) rowbody (List.range m)
      (fun a y hy => hpres a y (by have := List.mem_range.mp hy; omega))
      a ⟨hwf, hww, hhh⟩
    obtain ⟨hwf2, hww2, hhh2⟩ := hinv
    rw [heff _ m i j hwf2 hww2 hhh2 (by omega)]
    rw [ih a hwf hww hhh (by omega) i j]
    by_cases h1 : i < w ∧ m = j
    · rw [if_pos h1]
      obtain ⟨h1a, rfl⟩ := h1
      rw [if_neg (by omega), if_pos ⟨h1a, by omega⟩]
    · rw [if_neg h1]
      by_cases h2 : i < w ∧ j < m
      · rw [if_pos h2, if_pos ⟨h2.1, by omega⟩]
      · rw [if_neg h2, if_neg (by omega)]

/-! ### Characterizations of the mutating operations -/

theorem next_generation_width (g : GameOfLife) : g.next_generation.width = g.width := by
  unfold GameOfLife.next_generation
  refine foldl_invariant (fun a => a.width = g.width) _ ?_ _ g rfl
  intro a y h
  refine foldl_invariant (fun a => a.width = g.width) _ ?_ _ a h
  intro a2 x h2
  dsimp only
  rw [setCell_width]
  exact h2

theorem next_generation_height (g : GameOfLife) : g.next_generation.height = g.height := by
  unfold GameOfLife.next_generation
  refine foldl_invariant (fun a => a.height = g.height) _ ?_ _ g rfl
  intro a y h
  refine foldl_invariant (fun a => a.height = g.height) _ ?_ _ a h
  intro a2 x h2
  dsimp only
  rw [setCell_height]
  exact h2

theorem wellFormed_next_generation (g : GameOfLife) (hw : wellFormed g) :
    wellFormed g.next_generation := by
  unfold GameOfLife.next_generation
  have h := foldl_invariant_mem
    (fun a => wellFormed a ∧ a.width = g.width ∧ a.height = g.height)
    (fun acc y => (List.range g.width).foldl (fun acc2 x =>
      setCell acc2 x y
        (GameOfLife.apply_rules (getCell g x y) (g.count_live_neighbors x y))) acc)
    (List.range g.height) ?_ g ⟨hw, rfl, rfl⟩
  · exact h.1
  · intro a y hy ha
    have hy' : y < g.height := List.mem_range.mp hy
    dsimp only
    refine foldl_invariant_mem
      (fun b => wellFormed b ∧ b.width = g.width ∧ b.height = g.height) _ _ ?_ a ha
    intro b x hx hb
    dsimp only
    refine ⟨wellFormed_setCell b x y _ hb.1 (by rw [hb.2.2]; exact hy'), ?_, ?_⟩
    · rw [setCell_width]; exact hb.2.1
    · rw [setCell_height]; exact hb.2.2

theorem getCell_next_generation (g : GameOfLife) (hw : wellFormed g) (i j : Nat) :
    getCell g.next_generation i j =
      if i < g.width ∧ j < g.height
      then GameOfLife.apply_rules (getCell g i j) (g.count_live_neighbors i j)
      else getCell g i j := by
  unfold GameOfLife.next_generation
  have h := gridFold_getCell g.width g.height
    (fun acc y => (List.range g.width).foldl (fun acc2 x =>
      setCell acc2 x y
        (GameOfLife.apply_rules (getCell g x y) (g.count_live_neighbors x y))) acc)
    (fun i j _ => GameOfLife.apply_rules (getCell g i j) (g.count_live_neighbors i j))
    ?_ ?_ g.height g hw rfl rfl (le_refl _) i j
  · exact h
  · intro a y hy ha
    dsimp only
    refine foldl_invariant_mem
      (fun b => wellFormed b ∧ b.width = g.width ∧ b.height = g.height) _ _ ?_ a ha
    intro b x hx hb
    dsimp only
    refine ⟨wellFormed_setCell b x y _ hb.1 (by rw [hb.2.2]; exact hy), ?_, ?_⟩
    · rw [setCell_width]; exact hb.2.1
    · rw [setCell_height]; exact hb.2.2
  · intro a y i' j' hwa hwwa hha hy
    dsimp only
    have h2 := rowFold_getCell g.width g.height
      (fun acc2 x => setCell acc2 x y
        (GameOfLife.apply_rules (getCell g x y) (g.count_live_neighbors x y)))
      y (fun x _ => GameOfLife.apply_rules (getCell g x y) (g.count_live_neighbors x y))
      ?_ ?_ g.width a hwa hwwa hha (le_refl _) i' j'
    · exact h2
    · intro b x hx hb
      dsimp only
      refine ⟨wellFormed_setCell b x y _ hb.1 (by rw [hb.2.2]; exact hy), ?_, ?_⟩
      · rw [setCell_width]; exact hb.2.1
      · rw [setCell_height]; exact hb.2.2
    · intro b x i2 j2 hwb hwwb hhb hx
      dsimp only
      exact getCell_setCell b x y i2 j2 _ hwb (by rw [hwwb]; exact hx) (by rw [hhb]; exact hy)

theorem add_random_cells_width (g : GameOfLife) (p : ℚ) (rnd : Nat → Nat → ℚ) :
    (g.add_random_cells p rnd).width = g.width := by
  unfold GameOfLife.add_random_cells
  refine foldl_invariant (fun a => a.width = g.width) _ ?_ _ g rfl
  intro a y h
  refine foldl_invariant (fun a => a.width = g.width) _ ?_ _ a h
  intro a2 x h2
  dsimp only
  by_cases hr : rnd x y < p
  · rw [if_pos hr, setCell_width]; exact h2
  · rw [if_neg hr]; exact h2

theorem add_random_cells_height (g : GameOfLife) (p : ℚ) (rnd : Nat → Nat → ℚ) :
    (g.add_random_cells p rnd).height = g.height := by
  unfold GameOfLife.add_random_cells
  refine foldl_invariant (fun a => a.height = g.height) _ ?_ _ g rfl
  intro a y h
  refine foldl_invariant (fun a => a.height = g.height) _ ?_ _ a h
  intro a2 x h2
  dsimp only
  by_cases hr : rnd x y < p
  · rw [if_pos hr, setCell_height]; exact h2
  · rw [if_neg hr]; exact h2

theorem wellFormed_add_random_cells (g : GameOfLife) (p : ℚ) (rnd : Nat → Nat → ℚ)
    (hw : wellFormed g) : wellFormed (g.add_random_cells p rnd) := by
  unfold GameOfLife.add_random_cells
  have h := foldl_invariant_mem
    (fun a => wellFormed a ∧ a.width = g.width ∧ a.height = g.height)
    (fun g1 y => (List.range g.width).foldl (fun g2 x =>
      if rnd x y < p then setCell g2 x y CellState.Alive else g2) g1)
    (List.range g.height) ?_ g ⟨hw, rfl, rfl⟩
  · exact h.1
  · intro a y hy ha
    have hy' : y < g.height := List.mem_range.mp hy
    dsimp only
    refine foldl_invariant_mem
      (fun b => wellFormed b ∧ b.width = g.width ∧ b.height = g.height) _ _ ?_ a ha
    intro b x hx hb
    dsimp only
    by_cases hr : rnd x y < p
    · rw [if_pos hr]
      refine ⟨wellFormed_setCell b x y _ hb.1 (by rw [hb.2.2]; exact hy'), ?_, ?_⟩
      · rw [setCell_width]; exact hb.2.1
      · rw [setCell_height]; exact hb.2.2
    · rw [if_neg hr]; exact hb

theorem getCell_add_random_cells (g : GameOfLife) (p : ℚ) (rnd : Nat → Nat → ℚ)
    (hw : wellFormed g) (i j : Nat) :
    getCell (g.add_random_cells p rnd) i j =
      if i < g.width ∧ j < g.height
      then (if rnd i j < p then CellState.Alive else getCell g i j)
      else getCell g i j := by
  unfold GameOfLife.add_random_cells
  have h := gridFold_getCell g.width g.height
    (fun g1 y => (List.range g.width).foldl (fun g2 x =>
      if rnd x y < p then setCell g2 x y CellState.Alive else g2) g1)
    (fun i j old => if rnd i j < p then CellState.Alive else old)
    ?_ ?_ g.height g hw rfl rfl (le_refl _) i j
  · exact h
  · intro a y hy ha
    dsimp only
    refine foldl_invariant_mem
      (fun b => wellFormed b ∧ b.width = g.width ∧ b.height = g.height) _ _ ?_ a ha
    intro b x hx hb
    dsimp only
    by_cases hr : rnd x y < p
    · rw [if_pos hr]
      refine ⟨wellFormed_setCell b x y _ hb.1 (by rw [hb.2.2]; exact hy), ?_, ?_⟩
      · rw [setCell_width]; exact hb.2.1
      · rw [setCell_height]; exact hb.2.2
    · rw [if_neg hr]; exact hb
  · intro a y i' j' hwa hwwa hha hy
    dsimp only
    have h2 := rowFold_getCell g.width g.height
      (fun g2 x => if rnd x y < p then setCell g2 x y CellState.Alive else g2)
      y (fun x old => if rnd x y < p then CellState.Alive else old)
      ?_ ?_ g.width a hwa hwwa hha (le_refl _) i' j'
    · exact h2
    · intro b x hx hb
      dsimp only
      by_cases hr : rnd x y < p
      · rw [if_pos hr]
        refine ⟨wellFormed_setCell b x y _ hb.1 (by rw [hb.2.2]; exact hy), ?_, ?_⟩
        · rw [setCell_width]; exact hb.2.1
        · rw [setCell_height]; exact hb.2.2
      · rw [if_neg hr]; exact hb
    · intro b x i2 j2 hwb hwwb hhb hx
      dsimp only
      by_cases hr : rnd x y < p
      · rw [if_pos hr,
          getCell_setCell b x y i2 j2 _ hwb (by rw [hwwb]; exact hx) (by rw [hhb]; exact hy),
          if_pos hr]
      · rw [if_neg hr, if_neg hr, ite_self]

theorem add_pattern_cons (g : GameOfLife) (bx b : Nat) (d : Nat × Nat)
    (rest : List (Nat × Nat)) :
    g.add_pattern bx b (d :: rest) =
      (if bx + d.1 < g.width ∧ b + d.2 < g.height
       then setCell g (bx + d.1) (b + d.2) CellState.Alive
       else g).add_pattern bx b rest := rfl

theorem add_pattern_width (g : GameOfLife) (bx b : Nat) (pat : List (Nat × Nat)) :
    (g.add_pattern bx b pat).width = g.width := by
  unfold GameOfLife.add_pattern
  refine foldl_invariant (fun a => a.width = g.width) _ ?_ _ g rfl
  intro a d h
  dsimp only
  by_cases hd : bx + d.1 < a.width ∧ b + d.2 < a.height
  · rw [if_pos hd, setCell_width]; exact h
  · rw [if_neg hd]; exact h

theorem add_pattern_height (g : GameOfLife) (bx b : Nat) (pat : List (Nat × Nat)) :
    (g.add_pattern bx b pat).height = g.height := by
  unfold GameOfLife.add_pattern
  refine foldl_invariant (fun a => a.height = g.height) _ ?_ _ g rfl
  intro a d h
  dsimp only
  by_cases hd : bx + d.1 < a.width ∧ b + d.2 < a.height
  · rw [if_pos hd, setCell_height]; exact h
  · rw [if_neg hd]; exact h

theorem wellFormed_add_pattern (g : GameOfLife) (bx b : Nat) (pat : List (Nat × Nat))
    (hw : wellFormed g) : wellFormed (g.add_pattern bx b pat) := by
  unfold GameOfLife.add_pattern
  refine foldl_invariant (fun a => wellFormed a) _ ?_ _ g hw
  intro a d h
  dsimp only
  by_cases hd : bx + d.1 < a.width ∧ b + d.2 < a.height
  · rw [if_pos hd]
    exact wellFormed_setCell a _ _ _ h hd.2
  · rw [if_neg hd]; exact h

theorem getCell_add_pattern (g : GameOfLife) (bx b : Nat) (pat : List (Nat × Nat))
    (hw : wellFormed g) (i j : Nat) :
    getCell (g.add_pattern bx b pat) i j =
      if (∃ d ∈ pat, bx + d.1 = i ∧ b + d.2 = j) ∧ i < g.width ∧ j < g.height
      then CellState.Alive else getCell g i j := by
  induction pat generalizing g with
  | nil =>
    simp [GameOfLife.add_pattern]
  | cons d rest ih =>
    rw [add_pattern_cons]
    by_cases hd : bx + d.1 < g.width ∧ b + d.2 < g.height
    · rw [if_pos hd]
      have hw2 := wellFormed_setCell g (bx + d.1) (b + d.2) CellState.Alive hw hd.2
      rw [ih _ hw2, setCell_width, setCell_height,
        getCell_setCell g _ _ i j _ hw hd.1 hd.2]
      simp only [List.exists_mem_cons_iff]
      by_cases hrb : (∃ r ∈ rest, bx + r.1 = i ∧ b + r.2 = j) ∧ i < g.width ∧ j < g.height
      · rw [if_pos hrb, if_pos ⟨Or.inr hrb.1, hrb.2⟩]
      · rw [if_neg hrb]
        by_cases h2 : bx + d.1 = i ∧ b + d.2 = j
        · have hb : i < g.width ∧ j < g.height := by
            obtain ⟨h2a, h2b⟩ := h2
            omega
          rw [if_pos h2, if_pos ⟨Or.inl h2, hb⟩]
        · rw [if_neg h2, if_neg (fun hc => hc.1.elim h2 (fun h3 => hrb ⟨h3, hc.2⟩))]
    · rw [if_neg hd, ih g hw]
      simp only [List.exists_mem_cons_iff]
      by_cases hrb : (∃ r ∈ rest, bx + r.1 = i ∧ b + r.2 = j) ∧ i < g.width ∧ j < g.height
      · rw [if_pos hrb, if_pos ⟨Or.inr hrb.1, hrb.2⟩]
      · rw [if_neg hrb]
        rw [if_neg ?_]
        rintro ⟨h3 | h3, hb⟩
        · obtain ⟨h3a, h3b⟩ := h3
          obtain ⟨hba, hbb⟩ := hb
          exact hd ⟨by omega, by omega⟩
        · exact hrb ⟨h3, hb⟩

theorem sync_next_width (g : GameOfLife) : (sync_next g).width = g.width := rfl

theorem sync_next_height (g : GameOfLife) : (sync_next g).height = g.height := rfl

theorem wellFormed_sync_next (g : GameOfLife) : wellFormed (sync_next g) := by
  constructor
  · simp [sync_next]
  · intro row hrow
    simp only [sync_next, List.mem_map] at hrow
    obtain ⟨y, hy, rfl⟩ := hrow
    simp [sync_next]

theorem getElem?_range_eq (n m : Nat) :
    (List.range n)[m]? = if m < n then some m else none := by
  by_cases h : m < n
  · rw [if_pos h, List.getElem?_range h]
  · rw [if_neg h]
    apply List.getElem?_eq_none
    simpa using Nat.le_of_not_lt h

theorem getCell_sync_next (g : GameOfLife) (i j : Nat) :
    getCell (sync_next g) i j =
      if i < g.width ∧ j < g.height
      then GameOfLife.apply_rules (getCell g i j) (g.count_live_neighbors i j)
      else CellState.Dead := by
  unfold getCell sync_next
  simp only [List.getElem?_map, getElem?_range_eq]
  by_cases hj : j < g.height
  · simp only [if_pos hj, Option.map_some', Option.getD_some, List.getElem?_map,
      getElem?_range_eq]
    by_cases hi : i < g.width
    · simp only [if_pos hi, Option.getD_some, if_pos (And.intro hi hj)]
      rfl
    · simp [hi, hj]
  · simp [hj]

theorem flatten_getElem? {α : Type} (rows : List (List α)) (W : Nat)
    (hW : ∀ r ∈ rows, r.length = W) (y x : Nat) (hx : x < W) :
    rows.flatten[y * W + x]? = (rows[y]?.getD [])[x]? := by
  induction rows generalizing y with
  | nil => simp
  | cons r rest ih =>
    have hr : r.length = W := hW r (List.mem_cons_self _ _)
    cases y with
    | zero =>
      simp only [List.flatten_cons, Nat.zero_mul, Nat.zero_add]
      rw [List.getElem?_append, if_pos (by omega)]
      simp
    | succ y =>
      have hWle : W ≤ (y + 1) * W := by
        calc W = 1 * W := (one_mul W).symm
        _ ≤ (y + 1) * W := Nat.mul_le_mul_right W (by omega)
      simp only [List.flatten_cons]
      rw [List.getElem?_append, if_neg (by omega)]
      have harith : (y + 1) * W + x - r.length = y * W + x := by
        rw [hr]
        have : (y + 1) * W = y * W + W := by ring
        omega
      rw [harith, ih (fun r2 hr2 => hW r2 (List.mem_cons_of_mem _ hr2)) y]
      simp

theorem is_valid_position_iff (g : GameOfLife) (a b : Int) :
    g.is_valid_position a b = true ↔
      (0 ≤ a ∧ a < (g.width : Int) ∧ 0 ≤ b ∧ b < (g.height : Int)) := by
  simp [GameOfLife.is_valid_position, and_assoc]

theorem count_foldl_eq_countP (g : GameOfLife) (x y : Nat) :
    ∀ (ds : List (Int × Int)) (n : Nat),
      ds.foldl (fun count d =>
        if g.is_valid_position ((x : Int) + d.1) ((y : Int) + d.2) &&
           g.is_alive ((x : Int) + d.1).toNat ((y : Int) + d.2).toNat
        then count + 1 else count) n
      = n + (ds.filterMap (fun d =>
          let nx : Int := (x : Int) + d.1
          let ny : Int := (y : Int) + d.2
          if 0 ≤ nx ∧ nx < (g.width : Int) ∧ 0 ≤ ny ∧ ny < (g.height : Int)
          then some (nx.toNat, ny.toNat) else none)).countP
            (fun p => g.is_alive p.1 p.2) := by
  intro ds
  induction ds with
  | nil => intro n; simp
  | cons d rest ih =>
    intro n
    rw [List.foldl_cons, List.filterMap_cons]
    dsimp only
    by_cases hv : 0 ≤ (x : Int) + d.1 ∧ (x : Int) + d.1 < (g.width : Int) ∧
        0 ≤ (y : Int) + d.2 ∧ (y : Int) + d.2 < (g.height : Int)
    · rw [if_pos hv]
      have hvb : g.is_valid_position ((x : Int) + d.1) ((y : Int) + d.2) = true :=
        (is_valid_position_iff g _ _).mpr hv
      rw [hvb, Bool.true_and]
      by_cases ha : g.is_alive ((x : Int) + d.1).toNat ((y : Int) + d.2).toNat = true
      · rw [if_pos ha, ih (n + 1), List.countP_cons]
        simp [ha]
        omega
      · rw [if_neg ha, ih n, List.countP_cons]
        simp only [Bool.not_eq_true] at ha
        simp [ha]
    · have hvb : g.is_valid_position ((x : Int) + d.1) ((y : Int) + d.2) = false := by
        rw [← Bool.not_eq_true]
        simp only [is_valid_position_iff]
        exact hv
      rw [if_neg hv, hvb, Bool.false_and]
      rw [if_neg (by simp)]
      exact ih n

theorem count_live_neighbors_eq_moore (g : GameOfLife) (x y : Nat) :
    g.count_live_neighbors x y =
      (moore_in_bounds g x y).countP (fun p => g.is_alive p.1 p.2) := by
  unfold GameOfLife.count_live_neighbors moore_in_bounds
  rw [count_foldl_eq_countP g x y neighbor_deltas 0, Nat.zero_add]

theorem moore_in_bounds_mem (g : GameOfLife) (x y : Nat) :
    ∀ p ∈ moore_in_bounds g x y, p.1 < g.width ∧ p.2 < g.height := by
  intro p hp
  simp only [moore_in_bounds, List.mem_filterMap] at hp
  obtain ⟨d, _, hif⟩ := hp
  by_cases hv : 0 ≤ (x : Int) + d.1 ∧ (x : Int) + d.1 < (g.width : Int) ∧
      0 ≤ (y : Int) + d.2 ∧ (y : Int) + d.2 < (g.height : Int)
  · rw [if_pos hv] at hif
    obtain ⟨hv1, hv2, hv3, hv4⟩ := hv
    cases hif
    constructor <;> simp <;> omega
  · rw [if_neg hv] at hif
    cases hif

theorem moore_in_bounds_origin_length (g : GameOfLife) :
    (moore_in_bounds g 0 0).length ≤ 3 := by
  unfold moore_in_bounds neighbor_deltas
  simp only [List.filterMap_cons]
  norm_num
  split_ifs <;> simp

theorem count_origin_le_three (g : GameOfLife) : g.count_live_neighbors 0 0 ≤ 3 := by
  rw [count_live_neighbors_eq_moore]
  exact le_trans (List.countP_le_length _) (moore_in_bounds_origin_length g)


/-! ### The claims -/

/-- C1: for every cell state and neighbor count, `apply_rules` maps an Alive
cell with fewer than 2 live neighbors to Dead, an Alive cell with exactly 2 or
3 live neighbors to Alive, an Alive cell with more than 3 live neighbors to
Dead, a Dead cell with exactly 3 live neighbors to Alive, and every other
combination (a Dead cell with any count other than 3) to the current state. -/
theorem C1_step_rule (n : Nat) :
    GameOfLife.apply_rules CellState.Alive n =
      (if n < 2 then CellState.Dead
       else if n = 2 ∨ n = 3 then CellState.Alive
       else CellState.Dead) ∧
    GameOfLife.apply_rules CellState.Dead n =
      (if n = 3 then CellState.Alive else CellState.Dead) := by
  unfold GameOfLife.apply_rules
  constructor
  · split_ifs <;> simp_all <;> omega
  · split_ifs <;> simp_all

/-- C8: `get_color` is total and returns exactly white `0x00FFFFFF` for an
in-bounds Alive cell, dark blue `0x00001122` for an in-bounds Dead cell, and
black `0x00000000` whenever `x ≥ width` or `y ≥ height`; the out-of-bounds
answer never consults the grid. -/
theorem C8_get_color_total (g g2 : GameOfLife) (x y : Nat) :
    (g.get_color x y = 0x00FFFFFF ∨ g.get_color x y = 0x00001122 ∨
      g.get_color x y = 0x00000000) ∧
    (x < g.width → y < g.height → getCell g x y = CellState.Alive →
      g.get_color x y = 0x00FFFFFF) ∧
    (x < g.width → y < g.height → getCell g x y = CellState.Dead →
      g.get_color x y = 0x00001122) ∧
    (g.width ≤ x ∨ g.height ≤ y → g.get_color x y = 0x00000000) ∧
    (g.width ≤ x ∨ g.height ≤ y → g2.width = g.width → g2.height = g.height →
      g.get_color x y = g2.get_color x y) := by
  refine ⟨?_, ?_, ?_, ?_, ?_⟩
  · unfold GameOfLife.get_color
    split_ifs
    · cases getCell g x y <;> simp
    · simp
  · intro hx hy ha
    unfold GameOfLife.get_color
    rw [if_pos ⟨hx, hy⟩, ha]
  · intro hx hy hd
    unfold GameOfLife.get_color
    rw [if_pos ⟨hx, hy⟩, hd]
  · intro hout
    unfold GameOfLife.get_color
    rw [if_neg (by omega)]
  · intro hout hww hhh
    unfold GameOfLife.get_color
    rw [if_neg (by omega), if_neg (by omega)]

/-- Witness for C8 at concrete inputs. -/
theorem C8_get_color_total_witness :
    sampleGrid.get_color 3 2 = 0x00FFFFFF ∧
    sampleGrid.get_color 0 0 = 0x00001122 ∧
    sampleGrid.get_color 9 2 = 0x00000000 ∧
    sampleGrid.get_color 9 2 = (GameOfLife.new 7 7).get_color 9 2 :=
  ⟨(C8_get_color_total sampleGrid (GameOfLife.new 7 7) 3 2).2.1
      (by decide) (by decide) (by decide),
   (C8_get_color_total sampleGrid (GameOfLife.new 7 7) 0 0).2.2.1
      (by decide) (by decide) (by decide),
   (C8_get_color_total sampleGrid (GameOfLife.new 7 7) 9 2).2.2.2.1
      (by decide),
   (C8_get_color_total sampleGrid (GameOfLife.new 7 7) 9 2).2.2.2.2
      (by decide) (by decide) (by decide)⟩

/-- C3: for every in-bounds coordinate, `count_live_neighbors` counts Alive
cells exactly among the Moore-neighborhood positions inside
`[0,width) × [0,height)`; all counted positions are in bounds (never wrapped),
and at `(0,0)` at most 3 positions are counted, never 8. -/
theorem C3_hard_edges (g : GameOfLife) (x y : Nat)
    (hx : x < g.width) (hy : y < g.height) :
    g.count_live_neighbors x y =
      (moore_in_bounds g x y).countP (fun p => g.is_alive p.1 p.2) ∧
    (∀ p ∈ moore_in_bounds g x y, p.1 < g.width ∧ p.2 < g.height) ∧
    (moore_in_bounds g 0 0).length ≤ 3 ∧
    g.count_live_neighbors 0 0 ≤ 3 :=
  ⟨count_live_neighbors_eq_moore g x y, moore_in_bounds_mem g x y,
   moore_in_bounds_origin_length g, count_origin_le_three g⟩

/-- Witness for C3 at a concrete grid and coordinate. -/
theorem C3_hard_edges_witness :
    (0 < sampleGrid.width ∧ 0 < sampleGrid.height) ∧
    (sampleGrid.count_live_neighbors 0 0 =
      (moore_in_bounds sampleGrid 0 0).countP (fun p => sampleGrid.is_alive p.1 p.2) ∧
    (∀ p ∈ moore_in_bounds sampleGrid 0 0, p.1 < sampleGrid.width ∧ p.2 < sampleGrid.height) ∧
    (moore_in_bounds sampleGrid 0 0).length ≤ 3 ∧
    sampleGrid.count_live_neighbors 0 0 ≤ 3) :=
  ⟨⟨by decide, by decide⟩, C3_hard_edges sampleGrid 0 0 (by decide) (by decide)⟩

/-- C4: stamping a pattern sets a cell Alive only at an in-bounds absolute
coordinate; out-of-bounds offsets are silently dropped (no failure, the grid
stays well formed with unchanged dimensions) and never wrap: a cell whose
coordinate is not exactly `base + offset` for some offset is untouched. -/
theorem C4_pattern_clipping (g : GameOfLife) (bx b : Nat) (pat : List (Nat × Nat))
    (hw : wellFormed g) :
    wellFormed (g.add_pattern bx b pat) ∧
    (g.add_pattern bx b pat).width = g.width ∧
    (g.add_pattern bx b pat).height = g.height ∧
    (∀ d ∈ pat, bx + d.1 < g.width → b + d.2 < g.height →
      getCell (g.add_pattern bx b pat) (bx + d.1) (b + d.2) = CellState.Alive) ∧
    (∀ x y, ¬ (∃ d ∈ pat, bx + d.1 = x ∧ b + d.2 = y) →
      getCell (g.add_pattern bx b pat) x y = getCell g x y) := by
  refine ⟨wellFormed_add_pattern g bx b pat hw, add_pattern_width g bx b pat,
    add_pattern_height g bx b pat, ?_, ?_⟩
  · intro d hd hdx hdy
    rw [getCell_add_pattern g bx b pat hw]
    rw [if_pos ⟨⟨d, hd, rfl, rfl⟩, hdx, hdy⟩]
  · intro x y hno
    rw [getCell_add_pattern g bx b pat hw]
    rw [if_neg (fun hc => hno hc.1)]

/-- Witness for C4: a Blinker stamped at `(5, 6)` on the 7×7 board clips its
out-of-bounds offsets. -/
theorem C4_pattern_clipping_witness :
    wellFormed ((GameOfLife.new 7 7).add_pattern 5 6 blinker_pattern) ∧
    ((GameOfLife.new 7 7).add_pattern 5 6 blinker_pattern).width = (GameOfLife.new 7 7).width ∧
    ((GameOfLife.new 7 7).add_pattern 5 6 blinker_pattern).height = (GameOfLife.new 7 7).height ∧
    (∀ d ∈ blinker_pattern, 5 + d.1 < (GameOfLife.new 7 7).width →
      6 + d.2 < (GameOfLife.new 7 7).height →
      getCell ((GameOfLife.new 7 7).add_pattern 5 6 blinker_pattern) (5 + d.1) (6 + d.2) =
        CellState.Alive) ∧
    (∀ x y, ¬ (∃ d ∈ blinker_pattern, 5 + d.1 = x ∧ 6 + d.2 = y) →
      getCell ((GameOfLife.new 7 7).add_pattern 5 6 blinker_pattern) x y =
        getCell (GameOfLife.new 7 7) x y) :=
  C4_pattern_clipping (GameOfLife.new 7 7) 5 6 blinker_pattern (wellFormed_new 7 7)

/-- C9: a pattern stamp can change only cells at `(base_x+dx, base_y+dy)` for
offsets in the pattern, each change is only Dead→Alive, and every other cell
keeps its prior state; a placement never sets a cell to Dead. -/
theorem C9_pattern_frame (g : GameOfLife) (bx b : Nat) (pat : List (Nat × Nat))
    (hw : wellFormed g) :
    (∀ x y, ¬ (∃ d ∈ pat, bx + d.1 = x ∧ b + d.2 = y) →
      getCell (g.add_pattern bx b pat) x y = getCell g x y) ∧
    (∀ x y, getCell g x y = CellState.Alive →
      getCell (g.add_pattern bx b pat) x y = CellState.Alive) ∧
    (∀ x y, getCell (g.add_pattern bx b pat) x y ≠ getCell g x y →
      (∃ d ∈ pat, bx + d.1 = x ∧ b + d.2 = y) ∧ getCell g x y = CellState.Dead ∧
        getCell (g.add_pattern bx b pat) x y = CellState.Alive) := by
  refine ⟨?_, ?_, ?_⟩
  · intro x y hno
    rw [getCell_add_pattern g bx b pat hw, if_neg (fun hc => hno hc.1)]
  · intro x y ha
    rw [getCell_add_pattern g bx b pat hw]
    split_ifs with hc
    · rfl
    · exact ha
  · intro x y hne
    rw [getCell_add_pattern g bx b pat hw] at hne ⊢
    split_ifs at hne ⊢ with hc
    · refine ⟨hc.1, ?_, rfl⟩
      rcases hcell : getCell g x y with _ | _
      · rfl
      · rw [hcell] at hne
        exact absurd rfl hne
    · exact absurd rfl hne

/-- Witness for C9: a Blinker stamped at `(2, 2)` on the 7×7 board. -/
theorem C9_pattern_frame_witness :
    (∀ x y, ¬ (∃ d ∈ blinker_pattern, 2 + d.1 = x ∧ 2 + d.2 = y) →
      getCell ((GameOfLife.new 7 7).add_pattern 2 2 blinker_pattern) x y =
        getCell (GameOfLife.new 7 7) x y) ∧
    (∀ x y, getCell (GameOfLife.new 7 7) x y = CellState.Alive →
      getCell ((GameOfLife.new 7 7).add_pattern 2 2 blinker_pattern) x y = CellState.Alive) ∧
    (∀ x y, getCell ((GameOfLife.new 7 7).add_pattern 2 2 blinker_pattern) x y ≠
        getCell (GameOfLife.new 7 7) x y →
      (∃ d ∈ blinker_pattern, 2 + d.1 = x ∧ 2 + d.2 = y) ∧
        getCell (GameOfLife.new 7 7) x y = CellState.Dead ∧
        getCell ((GameOfLife.new 7 7).add_pattern 2 2 blinker_pattern) x y = CellState.Alive) :=
  C9_pattern_frame (GameOfLife.new 7 7) 2 2 blinker_pattern (wellFormed_new 7 7)

theorem add_known_patterns_width (g : GameOfLife) : g.add_known_patterns.width = g.width := by
  unfold GameOfLife.add_known_patterns GameOfLife.add_glider GameOfLife.add_block
    GameOfLife.add_blinker GameOfLife.add_toad GameOfLife.add_beacon GameOfLife.add_beehive
    GameOfLife.add_lightweight_spaceship GameOfLife.add_pulsar
  simp only [add_pattern_width]

theorem add_known_patterns_height (g : GameOfLife) : g.add_known_patterns.height = g.height := by
  unfold GameOfLife.add_known_patterns GameOfLife.add_glider GameOfLife.add_block
    GameOfLife.add_blinker GameOfLife.add_toad GameOfLife.add_beacon GameOfLife.add_beehive
    GameOfLife.add_lightweight_spaceship GameOfLife.add_pulsar
  simp only [add_pattern_height]

theorem wellFormed_add_known_patterns (g : GameOfLife) (hw : wellFormed g) :
    wellFormed g.add_known_patterns := by
  unfold GameOfLife.add_known_patterns GameOfLife.add_glider GameOfLife.add_block
    GameOfLife.add_blinker GameOfLife.add_toad GameOfLife.add_beacon GameOfLife.add_beehive
    GameOfLife.add_lightweight_spaceship GameOfLife.add_pulsar
  iterate 10 apply wellFormed_add_pattern
  exact hw

theorem initGrid_width (g : GameOfLife) (rnd : Nat → Nat → ℚ) :
    (g.initGrid rnd).width = g.width := by
  unfold GameOfLife.initGrid
  rw [add_known_patterns_width, add_random_cells_width, clear_grid_width]

theorem initGrid_height (g : GameOfLife) (rnd : Nat → Nat → ℚ) :
    (g.initGrid rnd).height = g.height := by
  unfold GameOfLife.initGrid
  rw [add_known_patterns_height, add_random_cells_height, clear_grid_height]

theorem wellFormed_initGrid (g : GameOfLife) (rnd : Nat → Nat → ℚ) (hw : wellFormed g) :
    wellFormed (g.initGrid rnd) :=
  wellFormed_add_known_patterns _
    (wellFormed_add_random_cells _ _ _ (wellFormed_clear_grid _ hw))

/-- C10: construction yields exactly `height` rows of `width` cells, and every
operation (clear, random seeding, pattern stamping, full initialization, and
`next_generation`) preserves that shape and leaves the `width`/`height` fields
unchanged, so every in-bounds coordinate stays a valid index. -/
theorem C10_shape_invariant (w h : Nat) (g : GameOfLife) (p : ℚ)
    (rnd : Nat → Nat → ℚ) (bx b : Nat) (pat : List (Nat × Nat)) (hw : wellFormed g) :
    (wellFormed (GameOfLife.new w h) ∧ (GameOfLife.new w h).width = w ∧
      (GameOfLife.new w h).height = h) ∧
    (wellFormed g.clear_grid ∧ g.clear_grid.width = g.width ∧
      g.clear_grid.height = g.height) ∧
    (wellFormed (g.add_random_cells p rnd) ∧ (g.add_random_cells p rnd).width = g.width ∧
      (g.add_random_cells p rnd).height = g.height) ∧
    (wellFormed (g.add_pattern bx b pat) ∧ (g.add_pattern bx b pat).width = g.width ∧
      (g.add_pattern bx b pat).height = g.height) ∧
    (wellFormed (g.initGrid rnd) ∧ (g.initGrid rnd).width = g.width ∧
      (g.initGrid rnd).height = g.height) ∧
    (wellFormed g.next_generation ∧ g.next_generation.width = g.width ∧
      g.next_generation.height = g.height) :=
  ⟨⟨wellFormed_new w h, rfl, rfl⟩,
   ⟨wellFormed_clear_grid g hw, clear_grid_width g, clear_grid_height g⟩,
   ⟨wellFormed_add_random_cells g p rnd hw, add_random_cells_width g p rnd,
    add_random_cells_height g p rnd⟩,
   ⟨wellFormed_add_pattern g bx b pat hw, add_pattern_width g bx b pat,
    add_pattern_height g bx b pat⟩,
   ⟨wellFormed_initGrid g rnd hw, initGrid_width g rnd, initGrid_height g rnd⟩,
   ⟨wellFormed_next_generation g hw, next_generation_width g, next_generation_height g⟩⟩

/-- Witness for C10 at a concrete grid and parameters. -/
theorem C10_shape_invariant_witness :
    (wellFormed (GameOfLife.new 4 5) ∧ (GameOfLife.new 4 5).width = 4 ∧
      (GameOfLife.new 4 5).height = 5) ∧
    (wellFormed sampleGrid.clear_grid ∧ sampleGrid.clear_grid.width = sampleGrid.width ∧
      sampleGrid.clear_grid.height = sampleGrid.height) ∧
    (wellFormed (sampleGrid.add_random_cells (1 / 2) (fun _ _ => 0)) ∧
      (sampleGrid.add_random_cells (1 / 2) (fun _ _ => 0)).width = sampleGrid.width ∧
      (sampleGrid.add_random_cells (1 / 2) (fun _ _ => 0)).height = sampleGrid.height) ∧
    (wellFormed (sampleGrid.add_pattern 1 1 block_pattern) ∧
      (sampleGrid.add_pattern 1 1 block_pattern).width = sampleGrid.width ∧
      (sampleGrid.add_pattern 1 1 block_pattern).height = sampleGrid.height) ∧
    (wellFormed (sampleGrid.initGrid (fun _ _ => 0)) ∧
      (sampleGrid.initGrid (fun _ _ => 0)).width = sampleGrid.width ∧
      (sampleGrid.initGrid (fun _ _ => 0)).height = sampleGrid.height) ∧
    (wellFormed sampleGrid.next_generation ∧
      sampleGrid.next_generation.width = sampleGrid.width ∧
      sampleGrid.next_generation.height = sampleGrid.height) :=
  C10_shape_invariant 4 5 sampleGrid (1 / 2) (fun _ _ => 0) 1 1 block_pattern (by decide)

/-- C2: one `next_generation` equals the reference synchronous update
`sync_next`, which computes the complete next-state table from a single
snapshot of the prior generation; no earlier cell's new value can influence a
later cell's neighbor count. -/
theorem C2_synchronous_update (g : GameOfLife) (hw : wellFormed g) :
    g.next_generation = sync_next g := by
  apply gameOfLife_ext _ _ (wellFormed_next_generation g hw) (wellFormed_sync_next g)
  · rw [next_generation_width, sync_next_width]
  · rw [next_generation_height, sync_next_height]
  · intro x y hx hy
    rw [next_generation_width] at hx
    rw [next_generation_height] at hy
    rw [getCell_next_generation g hw, getCell_sync_next, if_pos ⟨hx, hy⟩, if_pos ⟨hx, hy⟩]

/-- Witness for C2 at a concrete grid. -/
theorem C2_synchronous_update_witness :
    sampleGrid.next_generation = sync_next sampleGrid :=
  C2_synchronous_update sampleGrid (by decide)

/-- C5: the exported index buffer has length `width*height`, every entry is 0
or 1, and entry `y*width+x` is 1 iff cell `(x, y)` is Alive (0 iff Dead), for
the program's grid dimensions `WIDTH × HEIGHT`. -/
theorem C5_gif_frame (g : GameOfLife) (hw : wellFormed g) (hWidth : g.width = WIDTH)
    (hHeight : g.height = HEIGHT) :
    g.to_gif_frame_data.length = g.width * g.height ∧
    (∀ v ∈ g.to_gif_frame_data, v = 0 ∨ v = 1) ∧
    (∀ x y, x < g.width → y < g.height →
      (g.to_gif_frame_data[y * g.width + x]? = some 1 ↔ getCell g x y = CellState.Alive) ∧
      (g.to_gif_frame_data[y * g.width + x]? = some 0 ↔ getCell g x y = CellState.Dead)) := by
  refine ⟨?_, ?_, ?_⟩
  · unfold GameOfLife.to_gif_frame_data
    rw [List.length_flatten, List.map_map]
    have h1 : (List.map (List.length ∘ fun y => List.map (fun x =>
        match getCell g x y with
        | CellState.Alive => 1
        | CellState.Dead => 0) (List.range WIDTH)) (List.range HEIGHT))
        = List.map (fun _ => WIDTH) (List.range HEIGHT) := by
      apply List.map_congr_left
      intro a _
      simp
    rw [h1, hWidth, hHeight]
    simp [List.map_const']
    rw [Nat.mul_comm]
  · intro v hv
    simp only [GameOfLife.to_gif_frame_data, List.mem_flatten, List.mem_map] at hv
    obtain ⟨row, ⟨y, hy, rfl⟩, hvrow⟩ := hv
    obtain ⟨x, hx, rfl⟩ := List.mem_map.mp hvrow
    rcases hc : getCell g x y with _ | _ <;> simp [hc]
  · intro x y hx hy
    have hW : ∀ r ∈ (List.range HEIGHT).map (fun y => (List.range WIDTH).map (fun x =>
        match getCell g x y with
        | CellState.Alive => 1
        | CellState.Dead => 0)), r.length = WIDTH := by
      intro r hr
      obtain ⟨y', _, rfl⟩ := List.mem_map.mp hr
      simp
    unfold GameOfLife.to_gif_frame_data
    rw [hWidth]
    rw [flatten_getElem? _ WIDTH hW y x (by rw [← hWidth]; exact hx)]
    rw [List.getElem?_map, getElem?_range_eq, if_pos (by rw [← hHeight]; exact hy)]
    simp only [Option.map_some', Option.getD_some, List.getElem?_map, getElem?_range_eq,
      if_pos (show x < WIDTH by rw [← hWidth]; exact hx)]
    rcases hc : getCell g x y with _ | _ <;> simp [hc]

/-- Witness for C5 on the freshly constructed 100×100 grid. -/
theorem C5_gif_frame_witness :
    (GameOfLife.new 100 100).to_gif_frame_data.length =
      (GameOfLife.new 100 100).width * (GameOfLife.new 100 100).height ∧
    (∀ v ∈ (GameOfLife.new 100 100).to_gif_frame_data, v = 0 ∨ v = 1) ∧
    (∀ x y, x < (GameOfLife.new 100 100).width → y < (GameOfLife.new 100 100).height →
      ((GameOfLife.new 100 100).to_gif_frame_data[y * (GameOfLife.new 100 100).width + x]? =
          some 1 ↔ getCell (GameOfLife.new 100 100) x y = CellState.Alive) ∧
      ((GameOfLife.new 100 100).to_gif_frame_data[y * (GameOfLife.new 100 100).width + x]? =
          some 0 ↔ getCell (GameOfLife.new 100 100) x y = CellState.Dead)) :=
  C5_gif_frame (GameOfLife.new 100 100) (wellFormed_new 100 100) rfl rfl

theorem alive_add_pattern_iff (g : GameOfLife) (bx b : Nat) (pat : List (Nat × Nat))
    (hw : wellFormed g) (x y : Nat) (hx : x < g.width) (hy : y < g.height) :
    getCell (g.add_pattern bx b pat) x y = CellState.Alive ↔
      ((∃ d ∈ pat, bx + d.1 = x ∧ b + d.2 = y) ∨ getCell g x y = CellState.Alive) := by
  rw [getCell_add_pattern g bx b pat hw]
  by_cases hc : ∃ d ∈ pat, bx + d.1 = x ∧ b + d.2 = y
  · rw [if_pos ⟨hc, hx, hy⟩]
    simp [hc]
  · rw [if_neg (fun h => hc h.1)]
    simp [hc]

set_option maxHeartbeats 800000 in
/-- After `initialize`, an in-bounds cell is Alive iff it lies in one of the
ten stamped footprints (listed in reverse stamping order) or its random draw
fired. -/
theorem initGrid_alive_iff (g : GameOfLife) (rnd : Nat → Nat → ℚ) (hw : wellFormed g)
    (x y : Nat) (hx : x < g.width) (hy : y < g.height) :
    getCell (g.initGrid rnd) x y = CellState.Alive ↔
      ((∃ d ∈ pulsar_pattern, 50 + d.1 = x ∧ 20 + d.2 = y) ∨
       (∃ d ∈ lwss_pattern, 10 + d.1 = x ∧ 50 + d.2 = y) ∨
       (∃ d ∈ beehive_pattern, 60 + d.1 = x ∧ 60 + d.2 = y) ∨
       (∃ d ∈ beacon_pattern, 45 + d.1 = x ∧ 45 + d.2 = y) ∨
       (∃ d ∈ toad_pattern, 35 + d.1 = x ∧ 35 + d.2 = y) ∨
       (∃ d ∈ blinker_pattern, 25 + d.1 = x ∧ 25 + d.2 = y) ∨
       (∃ d ∈ block_pattern, 90 + d.1 = x ∧ 90 + d.2 = y) ∨
       (∃ d ∈ block_pattern, 5 + d.1 = x ∧ 5 + d.2 = y) ∨
       (∃ d ∈ glider_pattern, 70 + d.1 = x ∧ 10 + d.2 = y) ∨
       (∃ d ∈ glider_pattern, 15 + d.1 = x ∧ 15 + d.2 = y) ∨
       rnd x y < 15 / 100) := by
  have hw0 : wellFormed g.clear_grid := wellFormed_clear_grid g hw
  have hwA : wellFormed (g.clear_grid.add_random_cells (15 / 100) rnd) :=
    wellFormed_add_random_cells _ _ _ hw0
  have hWA : (g.clear_grid.add_random_cells (15 / 100) rnd).width = g.width := by
    rw [add_random_cells_width, clear_grid_width]
  have hHA : (g.clear_grid.add_random_cells (15 / 100) rnd).height = g.height := by
    rw [add_random_cells_height, clear_grid_height]
  have hrand : getCell (g.clear_grid.add_random_cells (15 / 100) rnd) x y = CellState.Alive ↔
      rnd x y < 15 / 100 := by
    rw [getCell_add_random_cells _ _ _ hw0,
      if_pos (show x < g.clear_grid.width ∧ y < g.clear_grid.height by
        rw [clear_grid_width, clear_grid_height]; exact ⟨hx, hy⟩),
      getCell_clear_grid]
    split_ifs with hr
    · simp [hr]
    · simp [hr]
  unfold GameOfLife.initGrid GameOfLife.add_known_patterns GameOfLife.add_glider
    GameOfLife.add_block GameOfLife.add_blinker GameOfLife.add_toad GameOfLife.add_beacon
    GameOfLife.add_beehive GameOfLife.add_lightweight_spaceship GameOfLife.add_pulsar
  set A0 := g.clear_grid.add_random_cells (15 / 100) rnd with hA0def
  set A1 := A0.add_pattern 15 15 glider_pattern with hA1def
  set A2 := A1.add_pattern 70 10 glider_pattern with hA2def
  set A3 := A2.add_pattern 5 5 block_pattern with hA3def
  set A4 := A3.add_pattern 90 90 block_pattern with hA4def
  set A5 := A4.add_pattern 25 25 blinker_pattern with hA5def
  set A6 := A5.add_pattern 35 35 toad_pattern with hA6def
  set A7 := A6.add_pattern 45 45 beacon_pattern with hA7def
  set A8 := A7.add_pattern 60 60 beehive_pattern with hA8def
  set A9 := A8.add_pattern 10 50 lwss_pattern with hA9def
  have hw1 : wellFormed A1 := wellFormed_add_pattern _ _ _ _ hwA
  have hw2 : wellFormed A2 := wellFormed_add_pattern _ _ _ _ hw1
  have hw3 : wellFormed A3 := wellFormed_add_pattern _ _ _ _ hw2
  have hw4 : wellFormed A4 := wellFormed_add_pattern _ _ _ _ hw3
  have hw5 : wellFormed A5 := wellFormed_add_pattern _ _ _ _ hw4
  have hw6 : wellFormed A6 := wellFormed_add_pattern _ _ _ _ hw5
  have hw7 : wellFormed A7 := wellFormed_add_pattern _ _ _ _ hw6
  have hw8 : wellFormed A8 := wellFormed_add_pattern _ _ _ _ hw7
  have hw9 : wellFormed A9 := wellFormed_add_pattern _ _ _ _ hw8
  have hWs1 : A1.width = g.width := by rw [hA1def, add_pattern_width, hWA]
  have hWs2 : A2.width = g.width := by rw [hA2def, add_pattern_width, hWs1]
  have hWs3 : A3.width = g.width := by rw [hA3def, add_pattern_width, hWs2]
  have hWs4 : A4.width = g.width := by rw [hA4def, add_pattern_width, hWs3]
  have hWs5 : A5.width = g.width := by rw [hA5def, add_pattern_width, hWs4]
  have hWs6 : A6.width = g.width := by rw [hA6def, add_pattern_width, hWs5]
  have hWs7 : A7.width = g.width := by rw [hA7def, add_pattern_width, hWs6]
  have hWs8 : A8.width = g.width := by rw [hA8def, add_pattern_width, hWs7]
  have hWs9 : A9.width = g.width := by rw [hA9def, add_pattern_width, hWs8]
  have hHs1 : A1.height = g.height := by rw [hA1def, add_pattern_height, hHA]
  have hHs2 : A2.height = g.height := by rw [hA2def, add_pattern_height, hHs1]
  have hHs3 : A3.height = g.height := by rw [hA3def, add_pattern_height, hHs2]
  have hHs4 : A4.height = g.height := by rw [hA4def, add_pattern_height, hHs3]
  have hHs5 : A5.height = g.height := by rw [hA5def, add_pattern_height, hHs4]
  have hHs6 : A6.height = g.height := by rw [hA6def, add_pattern_height, hHs5]
  have hHs7 : A7.height = g.height := by rw [hA7def, add_pattern_height, hHs6]
  have hHs8 : A8.height = g.height := by rw [hA8def, add_pattern_height, hHs7]
  have hHs9 : A9.height = g.height := by rw [hA9def, add_pattern_height, hHs8]
  rw [alive_add_pattern_iff A9 50 20 pulsar_pattern hw9 x y
      (by rw [hWs9]; exact hx) (by rw [hHs9]; exact hy),
    alive_add_pattern_iff A8 10 50 lwss_pattern hw8 x y
      (by rw [hWs8]; exact hx) (by rw [hHs8]; exact hy),
    alive_add_pattern_iff A7 60 60 beehive_pattern hw7 x y
      (by rw [hWs7]; exact hx) (by rw [hHs7]; exact hy),
    alive_add_pattern_iff A6 45 45 beacon_pattern hw6 x y
      (by rw [hWs6]; exact hx) (by rw [hHs6]; exact hy),
    alive_add_pattern_iff A5 35 35 toad_pattern hw5 x y
      (by rw [hWs5]; exact hx) (by rw [hHs5]; exact hy),
    alive_add_pattern_iff A4 25 25 blinker_pattern hw4 x y
      (by rw [hWs4]; exact hx) (by rw [hHs4]; exact hy),
    alive_add_pattern_iff A3 90 90 block_pattern hw3 x y
      (by rw [hWs3]; exact hx) (by rw [hHs3]; exact hy),
    alive_add_pattern_iff A2 5 5 block_pattern hw2 x y
      (by rw [hWs2]; exact hx) (by rw [hHs2]; exact hy),
    alive_add_pattern_iff A1 70 10 glider_pattern hw1 x y
      (by rw [hWs1]; exact hx) (by rw [hHs1]; exact hy),
    alive_add_pattern_iff A0 15 15 glider_pattern hwA x y
      (by rw [hWA]; exact hx) (by rw [hHA]; exact hy),
    hrand]

/-- C6: default initialization clears the grid, seeds each cell Alive with
probability `0.15` from the random source, then stamps the ten fixed
placements (two Gliders, two Blocks, one Blinker, one Toad, one Beacon, one
Beehive, one Lightweight Spaceship, one Pulsar) on top: an in-bounds cell ends
Alive iff it lies in a stamped footprint (footprints listed in reverse
stamping order) or its random draw fired, so the patterns overwrite the noise
at their footprints; and the result is independent of the prior grid contents
(the clear runs first). -/
theorem C6_initialization (g : GameOfLife) (rnd : Nat → Nat → ℚ) (hw : wellFormed g) :
    (∀ x y, x < g.width → y < g.height →
      (getCell (g.initGrid rnd) x y = CellState.Alive ↔
        ((∃ d ∈ pulsar_pattern, 50 + d.1 = x ∧ 20 + d.2 = y) ∨
         (∃ d ∈ lwss_pattern, 10 + d.1 = x ∧ 50 + d.2 = y) ∨
         (∃ d ∈ beehive_pattern, 60 + d.1 = x ∧ 60 + d.2 = y) ∨
         (∃ d ∈ beacon_pattern, 45 + d.1 = x ∧ 45 + d.2 = y) ∨
         (∃ d ∈ toad_pattern, 35 + d.1 = x ∧ 35 + d.2 = y) ∨
         (∃ d ∈ blinker_pattern, 25 + d.1 = x ∧ 25 + d.2 = y) ∨
         (∃ d ∈ block_pattern, 90 + d.1 = x ∧ 90 + d.2 = y) ∨
         (∃ d ∈ block_pattern, 5 + d.1 = x ∧ 5 + d.2 = y) ∨
         (∃ d ∈ glider_pattern, 70 + d.1 = x ∧ 10 + d.2 = y) ∨
         (∃ d ∈ glider_pattern, 15 + d.1 = x ∧ 15 + d.2 = y) ∨
         rnd x y < 15 / 100))) ∧
    (∀ g2, wellFormed g2 → g2.width = g.width → g2.height = g.height →
      ∀ x y, x < g.width → y < g.height →
        getCell (g2.initGrid rnd) x y = getCell (g.initGrid rnd) x y) := by
  refine ⟨fun x y hx hy => initGrid_alive_iff g rnd hw x y hx hy, ?_⟩
  intro g2 hw2 hww hhh x y hx hy
  have h1 := initGrid_alive_iff g rnd hw x y hx hy
  have h2 := initGrid_alive_iff g2 rnd hw2 x y (by rw [hww]; exact hx) (by rw [hhh]; exact hy)
  have hiff : getCell (g2.initGrid rnd) x y = CellState.Alive ↔
      getCell (g.initGrid rnd) x y = CellState.Alive := h2.trans h1.symm
  rcases hA : getCell (g2.initGrid rnd) x y with _ | _ <;>
    rcases hB : getCell (g.initGrid rnd) x y with _ | _
  · rfl
  · rw [hA, hB] at hiff
    exact hiff.mpr rfl
  · rw [hA, hB] at hiff
    exact (hiff.mp rfl).symm
  · rfl

/-- Witness for C6 on the 100×100 grid with a random source that never fires. -/
theorem C6_initialization_witness :
    (∀ x y, x < (GameOfLife.new 100 100).width → y < (GameOfLife.new 100 100).height →
      (getCell ((GameOfLife.new 100 100).initGrid (fun _ _ => 1)) x y = CellState.Alive ↔
        ((∃ d ∈ pulsar_pattern, 50 + d.1 = x ∧ 20 + d.2 = y) ∨
         (∃ d ∈ lwss_pattern, 10 + d.1 = x ∧ 50 + d.2 = y) ∨
         (∃ d ∈ beehive_pattern, 60 + d.1 = x ∧ 60 + d.2 = y) ∨
         (∃ d ∈ beacon_pattern, 45 + d.1 = x ∧ 45 + d.2 = y) ∨
         (∃ d ∈ toad_pattern, 35 + d.1 = x ∧ 35 + d.2 = y) ∨
         (∃ d ∈ blinker_pattern, 25 + d.1 = x ∧ 25 + d.2 = y) ∨
         (∃ d ∈ block_pattern, 90 + d.1 = x ∧ 90 + d.2 = y) ∨
         (∃ d ∈ block_pattern, 5 + d.1 = x ∧ 5 + d.2 = y) ∨
         (∃ d ∈ glider_pattern, 70 + d.1 = x ∧ 10 + d.2 = y) ∨
         (∃ d ∈ glider_pattern, 15 + d.1 = x ∧ 15 + d.2 = y) ∨
         (fun _ _ => (1 : ℚ)) x y < 15 / 100))) ∧
    (∀ g2, wellFormed g2 → g2.width = (GameOfLife.new 100 100).width →
      g2.height = (GameOfLife.new 100 100).height →
      ∀ x y, x < (GameOfLife.new 100 100).width → y < (GameOfLife.new 100 100).height →
        getCell (g2.initGrid (fun _ _ => 1)) x y =
          getCell ((GameOfLife.new 100 100).initGrid (fun _ _ => 1)) x y) :=
  C6_initialization (GameOfLife.new 100 100) (fun _ _ => 1) (wellFormed_new 100 100)


set_option maxHeartbeats 3200000 in
set_option maxRecDepth 4000 in
/-- One step of a lone horizontal Blinker (cells `(p,q),(p+1,q),(p+2,q)`,
away from the edges) yields exactly the perpendicular vertical line. -/
theorem blinker_step_horizontal (g : GameOfLife) (p q : Nat) (hw : wellFormed g)
    (hp : 2 ≤ p) (hq : 2 ≤ q) (hpw : p + 3 ≤ g.width) (hqh : q + 3 ≤ g.height)
    (hg : ∀ x y, x < g.width → y < g.height →
      (getCell g x y = CellState.Alive ↔ y = q ∧ (x = p ∨ x = p + 1 ∨ x = p + 2)))
    (x y : Nat) (hx : x < g.width) (hy : y < g.height) :
    getCell g.next_generation x y = CellState.Alive ↔
      x = p + 1 ∧ (y + 1 = q ∨ y = q ∨ y = q + 1) := by
  rw [getCell_next_generation g hw, if_pos ⟨hx, hy⟩]
  have halive : ∀ a b : Int, g.is_valid_position a b = true →
      (g.is_alive a.toNat b.toNat = true ↔
        (b = (q : Int) ∧ (a = (p : Int) ∨ a = (p : Int) + 1 ∨ a = (p : Int) + 2))) := by
    intro a b hv
    rw [is_valid_position_iff] at hv
    have hgc := hg a.toNat b.toNat (by omega) (by omega)
    rw [GameOfLife.is_alive, beq_iff_eq, hgc]
    constructor
    · rintro ⟨h1, h2⟩
      refine ⟨by omega, ?_⟩
      rcases h2 with h2 | h2 | h2 <;> omega
    · rintro ⟨h1, h2⟩
      refine ⟨by omega, ?_⟩
      rcases h2 with h2 | h2 | h2 <;> omega
  have hcond : ∀ dx dy : Int,
      ((g.is_valid_position ((x : Int) + dx) ((y : Int) + dy) &&
        g.is_alive ((x : Int) + dx).toNat ((y : Int) + dy).toNat) = true) ↔
      ((y : Int) + dy = (q : Int) ∧
        ((x : Int) + dx = (p : Int) ∨ (x : Int) + dx = (p : Int) + 1 ∨
         (x : Int) + dx = (p : Int) + 2)) := by
    intro dx dy
    rw [Bool.and_eq_true]
    constructor
    · rintro ⟨h1, h2⟩
      exact (halive _ _ h1).mp h2
    · intro hmem
      have hvalid : g.is_valid_position ((x : Int) + dx) ((y : Int) + dy) = true := by
        rw [is_valid_position_iff]
        obtain ⟨h1, h2⟩ := hmem
        rcases h2 with h2 | h2 | h2 <;> omega
      exact ⟨hvalid, (halive _ _ hvalid).mpr hmem⟩
  have hsplit : ∀ (c : Prop) [Decidable c] (a : Nat),
      (if c then a + 1 else a) = a + boolInd c := by
    intro c _ a
    unfold boolInd
    split_ifs <;> omega
  have hind1 : ∀ (c : Prop) [Decidable c], c → boolInd c = 1 := by
    intro c _ hc
    simp [boolInd, hc]
  have hind0 : ∀ (c : Prop) [Decidable c], ¬c → boolInd c = 0 := by
    intro c _ hc
    simp [boolInd, hc]
  have hAA : (CellState.Alive = CellState.Alive) = True := by simp
  have hAD : (CellState.Alive = CellState.Dead) = False := by simp
  have hDD : (CellState.Dead = CellState.Dead) = True := by simp
  have hDA : (CellState.Dead = CellState.Alive) = False := by simp
  unfold GameOfLife.count_live_neighbors neighbor_deltas
  simp only [List.foldl_cons, List.foldl_nil]
  dsimp only
  simp only [hcond]
  simp only [hsplit]
  by_cases hcurP : y = q ∧ (x = p ∨ x = p + 1 ∨ x = p + 2)
  · rw [(hg x y hx hy).mpr hcurP]
    by_cases h1 : (y : Int) + -1 = (q : Int) ∧ ((x : Int) + -1 = (p : Int) ∨
        (x : Int) + -1 = (p : Int) + 1 ∨ (x : Int) + -1 = (p : Int) + 2) <;>
    by_cases h2 : (y : Int) + -1 = (q : Int) ∧ ((x : Int) + 0 = (p : Int) ∨
        (x : Int) + 0 = (p : Int) + 1 ∨ (x : Int) + 0 = (p : Int) + 2) <;>
    by_cases h3 : (y : Int) + -1 = (q : Int) ∧ ((x : Int) + 1 = (p : Int) ∨
        (x : Int) + 1 = (p : Int) + 1 ∨ (x : Int) + 1 = (p : Int) + 2) <;>
    by_cases h4 : (y : Int) + 0 = (q : Int) ∧ ((x : Int) + -1 = (p : Int) ∨
        (x : Int) + -1 = (p : Int) + 1 ∨ (x : Int) + -1 = (p : Int) + 2) <;>
    by_cases h5 : (y : Int) + 0 = (q : Int) ∧ ((x : Int) + 1 = (p : Int) ∨
        (x : Int) + 1 = (p : Int) + 1 ∨ (x : Int) + 1 = (p : Int) + 2) <;>
    by_cases h6 : (y : Int) + 1 = (q : Int) ∧ ((x : Int) + -1 = (p : Int) ∨
        (x : Int) + -1 = (p : Int) + 1 ∨ (x : Int) + -1 = (p : Int) + 2) <;>
    by_cases h7 : (y : Int) + 1 = (q : Int) ∧ ((x : Int) + 0 = (p : Int) ∨
        (x : Int) + 0 = (p : Int) + 1 ∨ (x : Int) + 0 = (p : Int) + 2) <;>
    by_cases h8 : (y : Int) + 1 = (q : Int) ∧ ((x : Int) + 1 = (p : Int) ∨
        (x : Int) + 1 = (p : Int) + 1 ∨ (x : Int) + 1 = (p : Int) + 2) <;>
    (first | simp only [hind1 _ h1] | simp only [hind0 _ h1]) <;>
    (first | simp only [hind1 _ h2] | simp only [hind0 _ h2]) <;>
    (first | simp only [hind1 _ h3] | simp only [hind0 _ h3]) <;>
    (first | simp only [hind1 _ h4] | simp only [hind0 _ h4]) <;>
    (first | simp only [hind1 _ h5] | simp only [hind0 _ h5]) <;>
    (first | simp only [hind1 _ h6] | simp only [hind0 _ h6]) <;>
    (first | simp only [hind1 _ h7] | simp only [hind0 _ h7]) <;>
    (first | simp only [hind1 _ h8] | simp only [hind0 _ h8]) <;>
    norm_num [GameOfLife.apply_rules, hAA, hAD, hDD, hDA] <;> omega
  · have hcell : getCell g x y = CellState.Dead := by
      rcases hcell : getCell g x y with _ | _
      · rfl
      · exact absurd ((hg x y hx hy).mp hcell) hcurP
    rw [hcell]
    by_cases h1 : (y : Int) + -1 = (q : Int) ∧ ((x : Int) + -1 = (p : Int) ∨
        (x : Int) + -1 = (p : Int) + 1 ∨ (x : Int) + -1 = (p : Int) + 2) <;>
    by_cases h2 : (y : Int) + -1 = (q : Int) ∧ ((x : Int) + 0 = (p : Int) ∨
        (x : Int) + 0 = (p : Int) + 1 ∨ (x : Int) + 0 = (p : Int) + 2) <;>
    by_cases h3 : (y : Int) + -1 = (q : Int) ∧ ((x : Int) + 1 = (p : Int) ∨
        (x : Int) + 1 = (p : Int) + 1 ∨ (x : Int) + 1 = (p : Int) + 2) <;>
    by_cases h4 : (y : Int) + 0 = (q : Int) ∧ ((x : Int) + -1 = (p : Int) ∨
        (x : Int) + -1 = (p : Int) + 1 ∨ (x : Int) + -1 = (p : Int) + 2) <;>
    by_cases h5 : (y : Int) + 0 = (q : Int) ∧ ((x : Int) + 1 = (p : Int) ∨
        (x : Int) + 1 = (p : Int) + 1 ∨ (x : Int) + 1 = (p : Int) + 2) <;>
    by_cases h6 : (y : Int) + 1 = (q : Int) ∧ ((x : Int) + -1 = (p : Int) ∨
        (x : Int) + -1 = (p : Int) + 1 ∨ (x : Int) + -1 = (p : Int) + 2) <;>
    by_cases h7 : (y : Int) + 1 = (q : Int) ∧ ((x : Int) + 0 = (p : Int) ∨
        (x : Int) + 0 = (p : Int) + 1 ∨ (x : Int) + 0 = (p : Int) + 2) <;>
    by_cases h8 : (y : Int) + 1 = (q : Int) ∧ ((x : Int) + 1 = (p : Int) ∨
        (x : Int) + 1 = (p : Int) + 1 ∨ (x : Int) + 1 = (p : Int) + 2) <;>
    (first | simp only [hind1 _ h1] | simp only [hind0 _ h1]) <;>
    (first | simp only [hind1 _ h2] | simp only [hind0 _ h2]) <;>
    (first | simp only [hind1 _ h3] | simp only [hind0 _ h3]) <;>
    (first | simp only [hind1 _ h4] | simp only [hind0 _ h4]) <;>
    (first | simp only [hind1 _ h5] | simp only [hind0 _ h5]) <;>
    (first | simp only [hind1 _ h6] | simp only [hind0 _ h6]) <;>
    (first | simp only [hind1 _ h7] | simp only [hind0 _ h7]) <;>
    (first | simp only [hind1 _ h8] | simp only [hind0 _ h8]) <;>
    norm_num [GameOfLife.apply_rules, hAA, hAD, hDD, hDA] <;> omega

set_option maxHeartbeats 3200000 in
set_option maxRecDepth 4000 in
/-- One step of a lone vertical Blinker (cells `(p+1,q-1),(p+1,q),(p+1,q+1)`,
away from the edges) yields exactly the horizontal line back. -/
theorem blinker_step_vertical (g : GameOfLife) (p q : Nat) (hw : wellFormed g)
    (hp : 2 ≤ p) (hq : 2 ≤ q) (hpw : p + 3 ≤ g.width) (hqh : q + 3 ≤ g.height)
    (hg : ∀ x y, x < g.width → y < g.height →
      (getCell g x y = CellState.Alive ↔ x = p + 1 ∧ (y + 1 = q ∨ y = q ∨ y = q + 1)))
    (x y : Nat) (hx : x < g.width) (hy : y < g.height) :
    getCell g.next_generation x y = CellState.Alive ↔
      y = q ∧ (x = p ∨ x = p + 1 ∨ x = p + 2) := by
  rw [getCell_next_generation g hw, if_pos ⟨hx, hy⟩]
  have halive : ∀ a b : Int, g.is_valid_position a b = true →
      (g.is_alive a.toNat b.toNat = true ↔
        (a = (p : Int) + 1 ∧ (b + 1 = (q : Int) ∨ b = (q : Int) ∨ b = (q : Int) + 1))) := by
    intro a b hv
    rw [is_valid_position_iff] at hv
    have hgc := hg a.toNat b.toNat (by omega) (by omega)
    rw [GameOfLife.is_alive, beq_iff_eq, hgc]
    constructor
    · rintro ⟨h1, h2⟩
      refine ⟨by omega, ?_⟩
      rcases h2 with h2 | h2 | h2 <;> omega
    · rintro ⟨h1, h2⟩
      refine ⟨by omega, ?_⟩
      rcases h2 with h2 | h2 | h2 <;> omega
  have hcond : ∀ dx dy : Int,
      ((g.is_valid_position ((x : Int) + dx) ((y : Int) + dy) &&
        g.is_alive ((x : Int) + dx).toNat ((y : Int) + dy).toNat) = true) ↔
      ((x : Int) + dx = (p : Int) + 1 ∧
        ((y : Int) + dy + 1 = (q : Int) ∨ (y : Int) + dy = (q : Int) ∨
         (y : Int) + dy = (q : Int) + 1)) := by
    intro dx dy
    rw [Bool.and_eq_true]
    constructor
    · rintro ⟨h1, h2⟩
      exact (halive _ _ h1).mp h2
    · intro hmem
      have hvalid : g.is_valid_position ((x : Int) + dx) ((y : Int) + dy) = true := by
        rw [is_valid_position_iff]
        obtain ⟨h1, h2⟩ := hmem
        rcases h2 with h2 | h2 | h2 <;> omega
      exact ⟨hvalid, (halive _ _ hvalid).mpr hmem⟩
  have hsplit : ∀ (c : Prop) [Decidable c] (a : Nat),
      (if c then a + 1 else a) = a + boolInd c := by
    intro c _ a
    unfold boolInd
    split_ifs <;> omega
  have hind1 : ∀ (c : Prop) [Decidable c], c → boolInd c = 1 := by
    intro c _ hc
    simp [boolInd, hc]
  have hind0 : ∀ (c : Prop) [Decidable c], ¬c → boolInd c = 0 := by
    intro c _ hc
    simp [boolInd, hc]
  have hAA : (CellState.Alive = CellState.Alive) = True := by simp
  have hAD : (CellState.Alive = CellState.Dead) = False := by simp
  have hDD : (CellState.Dead = CellState.Dead) = True := by simp
  have hDA : (CellState.Dead = CellState.Alive) = False := by simp
  unfold GameOfLife.count_live_neighbors neighbor_deltas
  simp only [List.foldl_cons, List.foldl_nil]
  dsimp only
  simp only [hcond]
  simp only [hsplit]
  by_cases hcurP : x = p + 1 ∧ (y + 1 = q ∨ y = q ∨ y = q + 1)
  · rw [(hg x y hx hy).mpr hcurP]
    by_cases h1 : (x : Int) + -1 = (p : Int) + 1 ∧ ((y : Int) + -1 + 1 = (q : Int) ∨
        (y : Int) + -1 = (q : Int) ∨ (y : Int) + -1 = (q : Int) + 1) <;>
    by_cases h2 : (x : Int) + 0 = (p : Int) + 1 ∧ ((y : Int) + -1 + 1 = (q : Int) ∨
        (y : Int) + -1 = (q : Int) ∨ (y : Int) + -1 = (q : Int) + 1) <;>
    by_cases h3 : (x : Int) + 1 = (p : Int) + 1 ∧ ((y : Int) + -1 + 1 = (q : Int) ∨
        (y : Int) + -1 = (q : Int) ∨ (y : Int) + -1 = (q : Int) + 1) <;>
    by_cases h4 : (x : Int) + -1 = (p : Int) + 1 ∧ ((y : Int) + 0 + 1 = (q : Int) ∨
        (y : Int) + 0 = (q : Int) ∨ (y : Int) + 0 = (q : Int) + 1) <;>
    by_cases h5 : (x : Int) + 1 = (p : Int) + 1 ∧ ((y : Int) + 0 + 1 = (q : Int) ∨
        (y : Int) + 0 = (q : Int) ∨ (y : Int) + 0 = (q : Int) + 1) <;>
    by_cases h6 : (x : Int) + -1 = (p : Int) + 1 ∧ ((y : Int) + 1 + 1 = (q : Int) ∨
        (y : Int) + 1 = (q : Int) ∨ (y : Int) + 1 = (q : Int) + 1) <;>
    by_cases h7 : (x : Int) + 0 = (p : Int) + 1 ∧ ((y : Int) + 1 + 1 = (q : Int) ∨
        (y : Int) + 1 = (q : Int) ∨ (y : Int) + 1 = (q : Int) + 1) <;>
    by_cases h8 : (x : Int) + 1 = (p : Int) + 1 ∧ ((y : Int) + 1 + 1 = (q : Int) ∨
        (y : Int) + 1 = (q : Int) ∨ (y : Int) + 1 = (q : Int) + 1) <;>
    (first | simp only [hind1 _ h1] | simp only [hind0 _ h1]) <;>
    (first | simp only [hind1 _ h2] | simp only [hind0 _ h2]) <;>
    (first | simp only [hind1 _ h3] | simp only [hind0 _ h3]) <;>
    (first | simp only [hind1 _ h4] | simp only [hind0 _ h4]) <;>
    (first | simp only [hind1 _ h5] | simp only [hind0 _ h5]) <;>
    (first | simp only [hind1 _ h6] | simp only [hind0 _ h6]) <;>
    (first | simp only [hind1 _ h7] | simp only [hind0 _ h7]) <;>
    (first | simp only [hind1 _ h8] | simp only [hind0 _ h8]) <;>
    norm_num [GameOfLife.apply_rules, hAA, hAD, hDD, hDA] <;> omega
  · have hcell : getCell g x y = CellState.Dead := by
      rcases hcell : getCell g x y with _ | _
      · rfl
      · exact absurd ((hg x y hx hy).mp hcell) hcurP
    rw [hcell]
    by_cases h1 : (x : Int) + -1 = (p : Int) + 1 ∧ ((y : Int) + -1 + 1 = (q : Int) ∨
        (y : Int) + -1 = (q : Int) ∨ (y : Int) + -1 = (q : Int) + 1) <;>
    by_cases h2 : (x : Int) + 0 = (p : Int) + 1 ∧ ((y : Int) + -1 + 1 = (q : Int) ∨
        (y : Int) + -1 = (q : Int) ∨ (y : Int) + -1 = (q : Int) + 1) <;>
    by_cases h3 : (x : Int) + 1 = (p : Int) + 1 ∧ ((y : Int) + -1 + 1 = (q : Int) ∨
        (y : Int) + -1 = (q : Int) ∨ (y : Int) + -1 = (q : Int) + 1) <;>
    by_cases h4 : (x : Int) + -1 = (p : Int) + 1 ∧ ((y : Int) + 0 + 1 = (q : Int) ∨
        (y : Int) + 0 = (q : Int) ∨ (y : Int) + 0 = (q : Int) + 1) <;>
    by_cases h5 : (x : Int) + 1 = (p : Int) + 1 ∧ ((y : Int) + 0 + 1 = (q : Int) ∨
        (y : Int) + 0 = (q : Int) ∨ (y : Int) + 0 = (q : Int) + 1) <;>
    by_cases h6 : (x : Int) + -1 = (p : Int) + 1 ∧ ((y : Int) + 1 + 1 = (q : Int) ∨
        (y : Int) + 1 = (q : Int) ∨ (y : Int) + 1 = (q : Int) + 1) <;>
    by_cases h7 : (x : Int) + 0 = (p : Int) + 1 ∧ ((y : Int) + 1 + 1 = (q : Int) ∨
        (y : Int) + 1 = (q : Int) ∨ (y : Int) + 1 = (q : Int) + 1) <;>
    by_cases h8 : (x : Int) + 1 = (p : Int) + 1 ∧ ((y : Int) + 1 + 1 = (q : Int) ∨
        (y : Int) + 1 = (q : Int) ∨ (y : Int) + 1 = (q : Int) + 1) <;>
    (first | simp only [hind1 _ h1] | simp only [hind0 _ h1]) <;>
    (first | simp only [hind1 _ h2] | simp only [hind0 _ h2]) <;>
    (first | simp only [hind1 _ h3] | simp only [hind0 _ h3]) <;>
    (first | simp only [hind1 _ h4] | simp only [hind0 _ h4]) <;>
    (first | simp only [hind1 _ h5] | simp only [hind0 _ h5]) <;>
    (first | simp only [hind1 _ h6] | simp only [hind0 _ h6]) <;>
    (first | simp only [hind1 _ h7] | simp only [hind0 _ h7]) <;>
    (first | simp only [hind1 _ h8] | simp only [hind0 _ h8]) <;>
    norm_num [GameOfLife.apply_rules, hAA, hAD, hDD, hDA] <;> omega

/-- C7: a grid holding exactly the Blinker's 3-cell horizontal line stamped at
base `(p, q)`, at least 2 cells from every edge, oscillates with period 2:
one step yields exactly the perpendicular vertical 3-cell line, and two steps
return exactly the original cell set. -/
theorem C7_blinker_period (g : GameOfLife) (p q : Nat) (hw : wellFormed g)
    (hp : 2 ≤ p) (hq : 2 ≤ q) (hpw : p + 3 ≤ g.width) (hqh : q + 3 ≤ g.height)
    (hg : ∀ x y, x < g.width → y < g.height →
      (getCell g x y = CellState.Alive ↔ y = q ∧ (x = p ∨ x = p + 1 ∨ x = p + 2))) :
    (∀ x y, x < g.width → y < g.height →
      (getCell g.next_generation x y = CellState.Alive ↔
        x = p + 1 ∧ (y + 1 = q ∨ y = q ∨ y = q + 1))) ∧
    (∀ x y, x < g.width → y < g.height →
      getCell g.next_generation.next_generation x y = getCell g x y) := by
  have hphase1 : ∀ x y, x < g.width → y < g.height →
      (getCell g.next_generation x y = CellState.Alive ↔
        x = p + 1 ∧ (y + 1 = q ∨ y = q ∨ y = q + 1)) :=
    fun x y hx hy => blinker_step_horizontal g p q hw hp hq hpw hqh hg x y hx hy
  refine ⟨hphase1, ?_⟩
  intro x y hx hy
  have hw1 : wellFormed g.next_generation := wellFormed_next_generation g hw
  have hW1 : g.next_generation.width = g.width := next_generation_width g
  have hH1 : g.next_generation.height = g.height := next_generation_height g
  have hphase2 := blinker_step_vertical g.next_generation p q hw1 hp hq
    (by rw [hW1]; exact hpw) (by rw [hH1]; exact hqh)
    (fun a b ha hb => hphase1 a b (by rw [← hW1]; exact ha) (by rw [← hH1]; exact hb))
    x y (by rw [hW1]; exact hx) (by rw [hH1]; exact hy)
  have hiff := hphase2.trans (hg x y hx hy).symm
  rcases hA : getCell g.next_generation.next_generation x y with _ | _ <;>
    rcases hB : getCell g x y with _ | _
  · rfl
  · rw [hA, hB] at hiff
    exact hiff.mpr rfl
  · rw [hA, hB] at hiff
    exact (hiff.mp rfl).symm
  · rfl

/-- Witness for C7: the Blinker stamped at `(2, 2)` on the 7×7 board. -/
theorem C7_blinker_period_witness :
    (∀ x y, x < sampleGrid.width → y < sampleGrid.height →
      (getCell sampleGrid.next_generation x y = CellState.Alive ↔
        x = 2 + 1 ∧ (y + 1 = 2 ∨ y = 2 ∨ y = 2 + 1))) ∧
    (∀ x y, x < sampleGrid.width → y < sampleGrid.height →
      getCell sampleGrid.next_generation.next_generation x y = getCell sampleGrid x y) :=
  C7_blinker_period sampleGrid 2 2 (by decide) (by decide) (by decide) (by decide)
    (by decide)
    (by
      have hdec : ∀ x, x < 7 → ∀ y, y < 7 →
          (getCell sampleGrid x y = CellState.Alive ↔
            y = 2 ∧ (x = 2 ∨ x = 2 + 1 ∨ x = 2 + 2)) := by decide
      intro x y hx hy
      exact hdec x hx y hy)
